import Mathlib

/-!
# Verification of the A4 passport-photo layout planner

This file embeds the layout/packing arithmetic of the passport-photo web
application (the `/api/generate-layout` handler together with the preview
and PDF placement code in `server/routes.ts`) as pure Lean functions over
`ℚ` and `ℤ`, and proves properties of the embedded functions.

JavaScript numbers are modelled by exact rationals; `Math.round`,
`Math.floor` and `Math.ceil` are modelled by the corresponding integer
rounding functions, and the JavaScript `x || d` default idiom on numbers
is modelled by `jsOr` (`0` is falsy, every other number in the documented
input ranges is truthy).
-/

/-- JavaScript `Math.round`: round half away from zero toward `+∞`,
i.e. `⌊x + 1/2⌋`. -/
def jsRound (x : ℚ) : ℤ := ⌊x + 1/2⌋

/-- JavaScript `Math.floor` on a rational value. -/
def jsFloor (x : ℚ) : ℤ := ⌊x⌋

/-- JavaScript `Math.ceil` on a rational value. -/
def jsCeil (x : ℚ) : ℤ := ⌈x⌉

/-- JavaScript `x || d` on numbers: `0` is falsy and replaced by the
default `d`; any nonzero number is kept. -/
def jsOr (x d : ℚ) : ℚ := if x = 0 then d else x

/-- Horizontal component of the `layout` setting string
(`left`, `middle`, `right`). -/
inductive HorizAnchor where
  | left
  | hmiddle
  | right
deriving DecidableEq, Repr

/-- Vertical component of the `layout` setting string
(`top`, `middle`, `down`). -/
inductive VertAnchor where
  | top
  | vmiddle
  | down
deriving DecidableEq, Repr

/-- The `layout` setting: `auto`, or one of the nine anchored positions
`top-left` … `down-right`. -/
inductive Layout where
  | auto
  | anchored (v : VertAnchor) (h : HorizAnchor)
deriving DecidableEq, Repr

/-- The user-chosen photo settings validated by `photoSettingsSchema` and
consumed by the layout endpoints: photo width and height in mm, desired
quantity, inter-photo spacing in mm, top margin in mm, and the layout
anchor. -/
structure PhotoSettings where
  width : ℚ
  height : ℚ
  quantity : ℕ
  spacing : ℚ
  topMargin : ℚ
  layout : Layout
deriving DecidableEq, Repr

/-- The documented valid input ranges: quantity ∈ [1,20], width ∈ [10,100] mm,
height ∈ [10,150] mm, spacing ∈ [0,20] mm, topMargin ∈ [5,50] mm. -/
def ValidSettings (s : PhotoSettings) : Prop :=
  1 ≤ s.quantity ∧ s.quantity ≤ 20 ∧
  10 ≤ s.width ∧ s.width ≤ 100 ∧
  10 ≤ s.height ∧ s.height ≤ 150 ∧
  0 ≤ s.spacing ∧ s.spacing ≤ 20 ∧
  5 ≤ s.topMargin ∧ s.topMargin ≤ 50

instance (s : PhotoSettings) : Decidable (ValidSettings s) := by
  unfold ValidSettings; infer_instance

/-! ## Constants of the generate-layout handler (300 DPI) -/

/-- `MM_TO_PIXELS = DPI / 25.4` at 300 DPI. -/
def MM_TO_PIXELS : ℚ := 300 / 25.4

/-- `a4WidthPx = Math.round(210 * MM_TO_PIXELS)`. -/
def a4WidthPx : ℤ := jsRound (210 * MM_TO_PIXELS)

/-- `a4HeightPx = Math.round(297 * MM_TO_PIXELS)`. -/
def a4HeightPx : ℤ := jsRound (297 * MM_TO_PIXELS)

/-- `sideMargin = Math.round(10 * MM_TO_PIXELS)`. -/
def sideMarginPx : ℤ := jsRound (10 * MM_TO_PIXELS)

/-- `bottomMargin = Math.round(10 * MM_TO_PIXELS)`. -/
def bottomMarginPx : ℤ := jsRound (10 * MM_TO_PIXELS)

/-- `topMargin = Math.round((settings.topMargin || 10) * MM_TO_PIXELS)`. -/
def topMarginPx (s : PhotoSettings) : ℤ := jsRound (jsOr s.topMargin 10 * MM_TO_PIXELS)

/-- `availableWidth = a4WidthPx - 2 * sideMargin`. -/
def availableWidth : ℤ := a4WidthPx - 2 * sideMarginPx

/-- `availableHeight = a4HeightPx - topMargin - bottomMargin`. -/
def availableHeight (s : PhotoSettings) : ℤ := a4HeightPx - topMarginPx s - bottomMarginPx

/-- `photoWidthPx = Math.round(settings.width * MM_TO_PIXELS)` (before any
scaling). -/
def requestedWidthPx (s : PhotoSettings) : ℤ := jsRound (s.width * MM_TO_PIXELS)

/-- `photoHeightPx = Math.round(settings.height * MM_TO_PIXELS)` (before any
scaling). -/
def requestedHeightPx (s : PhotoSettings) : ℤ := jsRound (s.height * MM_TO_PIXELS)

/-- `spacingPx = Math.round(spacingMm * MM_TO_PIXELS)` for an already
defaulted spacing value. -/
def spacingPxOf (spacingMm : ℚ) : ℤ := jsRound (spacingMm * MM_TO_PIXELS)

/-! ## The layout computation (branch structure of `/api/generate-layout`) -/

/-- State of the layout computation after the quantity branch but before
the multi-row safety scaling: photos per row, total rows, and the current
photo pixel dimensions. -/
structure PrePlan where
  photosPerRow : ℤ
  totalRows : ℤ
  photoWidthPx : ℤ
  photoHeightPx : ℤ
deriving DecidableEq, Repr

/-- The quantity branch of the generate-layout handler, for an already
defaulted spacing value `spacingMm`:
* `quantity ≤ 3`: single row; keep the requested size when
  `quantity*photoWidthPx + (quantity-1)*spacingPx ≤ availableWidth`,
  otherwise scale both dimensions by `availableWidth / singleRowWidth`;
* `4 ≤ quantity ≤ 8`: single row, always scaled by
  `availableWidth / singleRowWidth`;
* `quantity > 8`: `photosPerRow = min(maxPhotosPerRowAtFullSize, quantity)`
  and `totalRows = Math.ceil(quantity / photosPerRow)`, size unchanged. -/
def prePlanWith (s : PhotoSettings) (spacingMm : ℚ) : PrePlan :=
  let w0 := requestedWidthPx s
  let h0 := requestedHeightPx s
  let spx := spacingPxOf spacingMm
  let q : ℤ := s.quantity
  if s.quantity ≤ 3 then
    let singleRowWidth := q * w0 + (q - 1) * spx
    if singleRowWidth ≤ availableWidth then
      ⟨q, 1, w0, h0⟩
    else
      let sc : ℚ := (availableWidth : ℚ) / (singleRowWidth : ℚ)
      ⟨q, 1, jsRound (w0 * sc), jsRound (h0 * sc)⟩
  else if s.quantity ≤ 8 then
    let singleRowWidth := q * w0 + (q - 1) * spx
    let sc : ℚ := (availableWidth : ℚ) / (singleRowWidth : ℚ)
    ⟨q, 1, jsRound (w0 * sc), jsRound (h0 * sc)⟩
  else
    let maxPhotosPerRowAtFullSize := jsFloor ((availableWidth + spx : ℤ) / ((w0 + spx : ℤ) : ℚ))
    let photosPerRow := min maxPhotosPerRowAtFullSize q
    let totalRows := jsCeil ((q : ℚ) / (photosPerRow : ℚ))
    ⟨photosPerRow, totalRows, w0, h0⟩

/-- The final layout plan: photos per row, total rows, the final (possibly
scaled) photo pixel dimensions, and the page utilization ratio. -/
structure LayoutPlan where
  photosPerRow : ℤ
  totalRows : ℤ
  photoWidthPx : ℤ
  photoHeightPx : ℤ
  pageUtilization : ℚ
deriving DecidableEq, Repr

/-- `totalRequiredWidth = photosPerRow * photoWidthPx + (photosPerRow - 1) * spacingPx`. -/
def totalRequiredWidth (p : PrePlan) (spx : ℤ) : ℤ :=
  p.photosPerRow * p.photoWidthPx + (p.photosPerRow - 1) * spx

/-- `totalRequiredHeight = totalRows * photoHeightPx + (totalRows - 1) * spacingPx`. -/
def totalRequiredHeight (p : PrePlan) (spx : ℤ) : ℤ :=
  p.totalRows * p.photoHeightPx + (p.totalRows - 1) * spx

/-- The multi-row safety scaling and page-utilization steps of the
generate-layout handler: when `totalRows > 1` and the grid overflows the
available area, both dimensions are scaled by
`min(widthScale, heightScale) * 0.98`; then
`pageUtilization = quantity * w * h / (availableWidth * availableHeight)`. -/
def finishPlan (s : PhotoSettings) (spacingMm : ℚ) (p : PrePlan) : LayoutPlan :=
  let spx := spacingPxOf spacingMm
  let trw := totalRequiredWidth p spx
  let trh := totalRequiredHeight p spx
  let wh : ℤ × ℤ :=
    if p.totalRows > 1 ∧ (trw > availableWidth ∨ trh > availableHeight s) then
      let widthScale : ℚ := (availableWidth : ℚ) / (trw : ℚ)
      let heightScale : ℚ := (availableHeight s : ℚ) / (trh : ℚ)
      let sc := min widthScale heightScale * 0.98
      (jsRound (p.photoWidthPx * sc), jsRound (p.photoHeightPx * sc))
    else
      (p.photoWidthPx, p.photoHeightPx)
  { photosPerRow := p.photosPerRow
    totalRows := p.totalRows
    photoWidthPx := wh.1
    photoHeightPx := wh.2
    pageUtilization :=
      (s.quantity * wh.1 * wh.2 : ℤ) / ((availableWidth * availableHeight s : ℤ) : ℚ) }

/-- The whole layout computation for an explicitly supplied spacing value
(in mm, already defaulted). -/
def planWith (s : PhotoSettings) (spacingMm : ℚ) : LayoutPlan :=
  finishPlan s spacingMm (prePlanWith s spacingMm)

/-- The layout computation as the handler runs it: the spacing actually
used is `settings.spacing || 5`. -/
def plan (s : PhotoSettings) : LayoutPlan := planWith s (jsOr s.spacing 5)

/-- Hypothetical planner in which a spacing of `0` mm takes effect
literally instead of being replaced by the 5 mm default; used only to
compare against `plan` (the code never computes this). -/
def planRawSpacing (s : PhotoSettings) : LayoutPlan := planWith s s.spacing

/-! ## PDF placement (`/api/generate-pdf`, mm units) -/

/-- PDF page width in mm (A4 portrait). -/
def pdfPageWidth : ℚ := 210

/-- PDF page height in mm (A4 portrait). -/
def pdfPageHeight : ℚ := 297

/-- PDF side margin in mm. -/
def pdfSideMargin : ℚ := 10

/-- PDF bottom margin in mm. -/
def pdfBottomMargin : ℚ := 10

/-- `topMargin = settings.topMargin || 10` in the PDF generator. -/
def pdfTopMargin (s : PhotoSettings) : ℚ := jsOr s.topMargin 10

/-- `availableHeight = 297 - topMargin - bottomMargin` in the PDF generator. -/
def pdfAvailableHeight (s : PhotoSettings) : ℚ :=
  pdfPageHeight - pdfTopMargin s - pdfBottomMargin

/-- `totalGridWidth = photosPerRow * settings.width + (photosPerRow - 1) * spacing`. -/
def pdfGridWidth (s : PhotoSettings) (sp : ℚ) (ppr : ℕ) : ℚ :=
  ppr * s.width + ((ppr : ℚ) - 1) * sp

/-- `totalGridHeight = totalRows * settings.height + (totalRows - 1) * spacing`. -/
def pdfGridHeight (s : PhotoSettings) (sp : ℚ) (rows : ℕ) : ℚ :=
  rows * s.height + ((rows : ℚ) - 1) * sp

/-- `startX` of the PDF placement: `left` anchors at the side margin,
`right` at `210 - sideMargin - gridWidth`, every other case (including
`auto`) centers against the page width. -/
def pdfStartX (s : PhotoSettings) (gw : ℚ) : ℚ :=
  match s.layout with
  | .auto => (pdfPageWidth - gw) / 2
  | .anchored _ .left => pdfSideMargin
  | .anchored _ .right => pdfPageWidth - pdfSideMargin - gw
  | .anchored _ .hmiddle => (pdfPageWidth - gw) / 2

/-- `startY` of the PDF placement: `top` anchors at the top margin, `down`
at `297 - bottomMargin - gridHeight`, every other case (including `auto`)
centers within the available height below the top margin. -/
def pdfStartY (s : PhotoSettings) (gh : ℚ) : ℚ :=
  match s.layout with
  | .auto => pdfTopMargin s + (pdfAvailableHeight s - gh) / 2
  | .anchored .top _ => pdfTopMargin s
  | .anchored .down _ => pdfPageHeight - pdfBottomMargin - gh
  | .anchored .vmiddle _ => pdfTopMargin s + (pdfAvailableHeight s - gh) / 2

/-- The coordinates (in mm) at which the PDF loop body draws the photo of
grid cell (`row`, `col`):
`(startX + col*(width + spacing), startY + row*(height + spacing))`. -/
def pdfPos (s : PhotoSettings) (sp : ℚ) (ppr rows row col : ℕ) : ℚ × ℚ :=
  (pdfStartX s (pdfGridWidth s sp ppr) + col * (s.width + sp),
   pdfStartY s (pdfGridHeight s sp rows) + row * (s.height + sp))

/-- The PDF placement loop for an explicitly supplied spacing value: the
positions (in mm) at which `pdf.addImage` draws the photo copies, in the
order they are drawn.  Rows are iterated outermost, columns innermost,
and the loop stops as soon as `quantity` photos have been placed. -/
def pdfPlacementsWith (s : PhotoSettings) (sp : ℚ) (ppr rows : ℕ) : List (ℚ × ℚ) :=
  ((List.range rows).flatMap (fun row => (List.range ppr).map (fun col =>
      pdfPos s sp ppr rows row col))).take s.quantity

/-- The PDF placement loop as the code runs it (`spacing = settings.spacing || 5`). -/
def pdfPlacements (s : PhotoSettings) (ppr rows : ℕ) : List (ℚ × ℚ) :=
  pdfPlacementsWith s (jsOr s.spacing 5) ppr rows

/-! ## Preview placement (`/api/generate-preview`, pixels at 150 DPI) -/

/-- `MM_TO_PIXELS` of the preview generator (150 DPI). -/
def PREVIEW_MM_TO_PIXELS : ℚ := 150 / 25.4

/-- `canvasWidth = Math.round(210 * MM_TO_PIXELS)` of the preview. -/
def previewCanvasWidth : ℤ := jsRound (210 * PREVIEW_MM_TO_PIXELS)

/-- `canvasHeight = Math.round(297 * MM_TO_PIXELS)` of the preview. -/
def previewCanvasHeight : ℤ := jsRound (297 * PREVIEW_MM_TO_PIXELS)

/-- `sideMarginPx` of the preview. -/
def previewSideMargin : ℤ := jsRound (10 * PREVIEW_MM_TO_PIXELS)

/-- `bottomMarginPx` of the preview. -/
def previewBottomMargin : ℤ := jsRound (10 * PREVIEW_MM_TO_PIXELS)

/-- `topMarginPx = Math.round((settings.topMargin || 10) * MM_TO_PIXELS)` of the preview. -/
def previewTopMargin (s : PhotoSettings) : ℤ :=
  jsRound (jsOr s.topMargin 10 * PREVIEW_MM_TO_PIXELS)

/-- `photoWidthPx = Math.round(settings.width * MM_TO_PIXELS)` of the preview
(the preview always uses the requested width, not the scaled one). -/
def previewPhotoWidth (s : PhotoSettings) : ℤ := jsRound (s.width * PREVIEW_MM_TO_PIXELS)

/-- `photoHeightPx = Math.round(settings.height * MM_TO_PIXELS)` of the preview. -/
def previewPhotoHeight (s : PhotoSettings) : ℤ := jsRound (s.height * PREVIEW_MM_TO_PIXELS)

/-- `availableWidth = canvasWidth - 2 * sideMarginPx` of the preview. -/
def previewAvailableWidth : ℤ := previewCanvasWidth - 2 * previewSideMargin

/-- `availableHeight = canvasHeight - topMarginPx - bottomMarginPx` of the preview. -/
def previewAvailableHeight (s : PhotoSettings) : ℤ :=
  previewCanvasHeight - previewTopMargin s - previewBottomMargin

/-- `spacingPx = Math.round(sp * MM_TO_PIXELS)` of the preview, for an
explicitly supplied spacing value. -/
def previewSpacingPx (sp : ℚ) : ℤ := jsRound (sp * PREVIEW_MM_TO_PIXELS)

/-- `startX` of the preview placement (a rational: JavaScript keeps the
unrounded value and rounds only the final coordinates). -/
def previewStartX (s : PhotoSettings) (gw : ℤ) : ℚ :=
  match s.layout with
  | .auto => ((previewCanvasWidth - gw : ℤ) : ℚ) / 2
  | .anchored _ .left => (previewSideMargin : ℚ)
  | .anchored _ .right => ((previewCanvasWidth - previewSideMargin - gw : ℤ) : ℚ)
  | .anchored _ .hmiddle => ((previewCanvasWidth - gw : ℤ) : ℚ) / 2

/-- `startY` of the preview placement. -/
def previewStartY (s : PhotoSettings) (gh : ℤ) : ℚ :=
  match s.layout with
  | .auto => (previewTopMargin s : ℚ) + ((previewAvailableHeight s - gh : ℤ) : ℚ) / 2
  | .anchored .top _ => (previewTopMargin s : ℚ)
  | .anchored .down _ => ((previewCanvasHeight - previewBottomMargin - gh : ℤ) : ℚ)
  | .anchored .vmiddle _ => (previewTopMargin s : ℚ) + ((previewAvailableHeight s - gh : ℤ) : ℚ) / 2

/-- `totalGridWidth` of the preview (pixels). -/
def previewGridWidth (s : PhotoSettings) (sp : ℚ) (ppr : ℕ) : ℤ :=
  ppr * previewPhotoWidth s + ((ppr : ℤ) - 1) * previewSpacingPx sp

/-- `totalGridHeight` of the preview (pixels). -/
def previewGridHeight (s : PhotoSettings) (sp : ℚ) (rows : ℕ) : ℤ :=
  rows * previewPhotoHeight s + ((rows : ℤ) - 1) * previewSpacingPx sp

/-- The pixel coordinates at which the preview composite loop places the
photo of grid cell (`row`, `col`):
each coordinate is `Math.round(start + index * (size + spacing))`. -/
def previewPos (s : PhotoSettings) (sp : ℚ) (ppr rows row col : ℕ) : ℤ × ℤ :=
  (jsRound (previewStartX s (previewGridWidth s sp ppr) +
      col * ((previewPhotoWidth s + previewSpacingPx sp : ℤ) : ℚ)),
   jsRound (previewStartY s (previewGridHeight s sp rows) +
      row * ((previewPhotoHeight s + previewSpacingPx sp : ℤ) : ℚ)))

/-- The preview composite loop for an explicitly supplied spacing value:
the pixel positions (`left`, `top`) of the composited photo copies, in
order. -/
def previewPlacementsWith (s : PhotoSettings) (sp : ℚ) (ppr rows : ℕ) : List (ℤ × ℤ) :=
  ((List.range rows).flatMap (fun row => (List.range ppr).map (fun col =>
      previewPos s sp ppr rows row col))).take s.quantity

/-- The preview composite loop as the code runs it
(`spacing = settings.spacing || 5`). -/
def previewPlacements (s : PhotoSettings) (ppr rows : ℕ) : List (ℤ × ℤ) :=
  previewPlacementsWith s (jsOr s.spacing 5) ppr rows

/-! ## The persisted layout record (`storage.saveLayoutResult`) -/

/-- The record the generate-layout handler passes to
`storage.saveLayoutResult` (string-valued fields such as `imageId`,
`cropSettings` and `processedImageUrl` are omitted: only the numeric
content matters here).  The handler persists the validated settings, the
row/column counts, the utilization ratio and the border width — and
nothing else. -/
structure SavedLayoutRecord where
  settings : PhotoSettings
  photosPerRow : ℤ
  totalRows : ℤ
  pageUtilization : ℚ
  borderWidth : ℚ
deriving DecidableEq, Repr

/-- The record built at the end of the generate-layout handler from the
computed plan. -/
def savedLayoutRecord (s : PhotoSettings) (borderWidth : ℚ) : SavedLayoutRecord :=
  { settings := s
    photosPerRow := (plan s).photosPerRow
    totalRows := (plan s).totalRows
    pageUtilization := (plan s).pageUtilization
    borderWidth := borderWidth }

/-- Every numeric value present in a persisted layout record, as rationals. -/
def savedNumericValues (r : SavedLayoutRecord) : List ℚ :=
  [(r.photosPerRow : ℚ), (r.totalRows : ℚ), r.pageUtilization,
   r.settings.width, r.settings.height, (r.settings.quantity : ℚ),
   r.settings.spacing, r.settings.topMargin, r.borderWidth]

/-! ## Arithmetic helper lemmas -/

theorem jsRound_mono {x y : ℚ} (h : x ≤ y) : jsRound x ≤ jsRound y :=
  Int.floor_mono (add_le_add_right h _)

theorem jsRound_intCast (n : ℤ) : jsRound (n : ℚ) = n := by
  unfold jsRound
  rw [Int.floor_int_add]
  norm_num

theorem le_jsRound_of {x : ℚ} {n : ℤ} (h : (n : ℚ) ≤ x + 1/2) : n ≤ jsRound x :=
  Int.le_floor.mpr h

theorem jsRound_le_of {x : ℚ} {n : ℤ} (h : x + 1/2 < (n : ℚ) + 1) : jsRound x ≤ n := by
  unfold jsRound
  rw [Int.floor_le_iff]
  exact h

theorem jsRound_nonneg {x : ℚ} (h : 0 ≤ x) : 0 ≤ jsRound x :=
  le_jsRound_of (by linarith)

theorem one_le_jsRound {x : ℚ} (h : 1/2 ≤ x) : 1 ≤ jsRound x :=
  le_jsRound_of (by push_cast; linarith)

theorem jsRound_eq_of {x : ℚ} {n : ℤ} (h1 : (n : ℚ) ≤ x + 1/2) (h2 : x + 1/2 < (n : ℚ) + 1) :
    jsRound x = n := by
  unfold jsRound
  rw [Int.floor_eq_iff]
  exact ⟨h1, h2⟩

theorem MM_TO_PIXELS_eq : MM_TO_PIXELS = 1500/127 := by
  unfold MM_TO_PIXELS
  norm_num

theorem jsRound_mm (c : ℚ) (n : ℤ) (h1 : (n : ℚ) ≤ c * (1500/127) + 1/2)
    (h2 : c * (1500/127) + 1/2 < (n : ℚ) + 1) : jsRound (c * MM_TO_PIXELS) = n := by
  rw [MM_TO_PIXELS_eq]
  exact jsRound_eq_of h1 h2

theorem a4WidthPx_eq : a4WidthPx = 2480 := by
  unfold a4WidthPx
  exact jsRound_mm _ _ (by norm_num) (by norm_num)

theorem a4HeightPx_eq : a4HeightPx = 3508 := by
  unfold a4HeightPx
  exact jsRound_mm _ _ (by norm_num) (by norm_num)

theorem sideMarginPx_eq : sideMarginPx = 118 := by
  unfold sideMarginPx
  exact jsRound_mm _ _ (by norm_num) (by norm_num)

theorem bottomMarginPx_eq : bottomMarginPx = 118 := by
  unfold bottomMarginPx
  exact jsRound_mm _ _ (by norm_num) (by norm_num)

theorem availableWidth_eq : availableWidth = 2244 := by
  unfold availableWidth
  rw [a4WidthPx_eq, sideMarginPx_eq]
  norm_num

/-! ### Pixel bounds under the documented valid ranges -/

section Bounds

variable {s : PhotoSettings}

theorem requestedWidthPx_bounds (hv : ValidSettings s) :
    118 ≤ requestedWidthPx s ∧ requestedWidthPx s ≤ 1181 := by
  obtain ⟨-, -, hw1, hw2, -⟩ := hv
  constructor
  · have h := jsRound_mono (x := 10 * MM_TO_PIXELS) (y := s.width * MM_TO_PIXELS)
      (by rw [MM_TO_PIXELS_eq]; nlinarith)
    rwa [jsRound_mm 10 118 (by norm_num) (by norm_num)] at h
  · have h := jsRound_mono (x := s.width * MM_TO_PIXELS) (y := 100 * MM_TO_PIXELS)
      (by rw [MM_TO_PIXELS_eq]; nlinarith)
    rwa [jsRound_mm 100 1181 (by norm_num) (by norm_num)] at h

theorem requestedHeightPx_bounds (hv : ValidSettings s) :
    118 ≤ requestedHeightPx s ∧ requestedHeightPx s ≤ 1772 := by
  obtain ⟨-, -, -, -, hh1, hh2, -⟩ := hv
  constructor
  · have h := jsRound_mono (x := 10 * MM_TO_PIXELS) (y := s.height * MM_TO_PIXELS)
      (by rw [MM_TO_PIXELS_eq]; nlinarith)
    rwa [jsRound_mm 10 118 (by norm_num) (by norm_num)] at h
  · have h := jsRound_mono (x := s.height * MM_TO_PIXELS) (y := 150 * MM_TO_PIXELS)
      (by rw [MM_TO_PIXELS_eq]; nlinarith)
    rwa [jsRound_mm 150 1772 (by norm_num) (by norm_num)] at h

/-- The spacing value actually used by the planner lies in `(0, 20]` mm. -/
theorem jsOr_spacing_bounds (hv : ValidSettings s) :
    0 < jsOr s.spacing 5 ∧ jsOr s.spacing 5 ≤ 20 := by
  obtain ⟨-, -, -, -, -, -, hs1, hs2, -⟩ := hv
  unfold jsOr
  by_cases h : s.spacing = 0
  · rw [if_pos h]; norm_num
  · rw [if_neg h]
    exact ⟨lt_of_le_of_ne hs1 (Ne.symm h), hs2⟩

theorem spacingPx_bounds (hv : ValidSettings s) :
    0 ≤ spacingPxOf (jsOr s.spacing 5) ∧ spacingPxOf (jsOr s.spacing 5) ≤ 236 := by
  obtain ⟨hs1, hs2⟩ := jsOr_spacing_bounds hv
  unfold spacingPxOf
  constructor
  · exact jsRound_nonneg (by rw [MM_TO_PIXELS_eq]; nlinarith)
  · have h := jsRound_mono (x := jsOr s.spacing 5 * MM_TO_PIXELS) (y := 20 * MM_TO_PIXELS)
      (by rw [MM_TO_PIXELS_eq]; nlinarith)
    rwa [jsRound_mm 20 236 (by norm_num) (by norm_num)] at h

theorem topMarginPx_bounds (hv : ValidSettings s) :
    59 ≤ topMarginPx s ∧ topMarginPx s ≤ 591 := by
  obtain ⟨-, -, -, -, -, -, -, -, ht1, ht2⟩ := hv
  have hne : s.topMargin ≠ 0 := by
    intro h
    rw [h] at ht1
    norm_num at ht1
  unfold topMarginPx jsOr
  rw [if_neg hne]
  constructor
  · have h := jsRound_mono (x := 5 * MM_TO_PIXELS) (y := s.topMargin * MM_TO_PIXELS)
      (by rw [MM_TO_PIXELS_eq]; nlinarith)
    rwa [jsRound_mm 5 59 (by norm_num) (by norm_num)] at h
  · have h := jsRound_mono (x := s.topMargin * MM_TO_PIXELS) (y := 50 * MM_TO_PIXELS)
      (by rw [MM_TO_PIXELS_eq]; nlinarith)
    rwa [jsRound_mm 50 591 (by norm_num) (by norm_num)] at h

theorem availableHeight_bounds (hv : ValidSettings s) :
    2799 ≤ availableHeight s ∧ availableHeight s ≤ 3331 := by
  obtain ⟨ht1, ht2⟩ := topMarginPx_bounds hv
  unfold availableHeight
  rw [a4HeightPx_eq, bottomMarginPx_eq]
  omega

end Bounds

theorem prePlanWith_le3_fits {s : PhotoSettings} {sp : ℚ} (h3 : s.quantity ≤ 3)
    (hfit : (s.quantity : ℤ) * requestedWidthPx s + ((s.quantity : ℤ) - 1) * spacingPxOf sp
      ≤ availableWidth) :
    prePlanWith s sp = ⟨s.quantity, 1, requestedWidthPx s, requestedHeightPx s⟩ := by
  unfold prePlanWith
  rw [if_pos h3, if_pos hfit]

theorem prePlanWith_le3_nofit {s : PhotoSettings} {sp : ℚ} (h3 : s.quantity ≤ 3)
    (hfit : ¬ ((s.quantity : ℤ) * requestedWidthPx s + ((s.quantity : ℤ) - 1) * spacingPxOf sp
      ≤ availableWidth)) :
    prePlanWith s sp = ⟨s.quantity, 1,
      jsRound (requestedWidthPx s * ((availableWidth : ℚ) /
        (((s.quantity : ℤ) * requestedWidthPx s + ((s.quantity : ℤ) - 1) * spacingPxOf sp : ℤ) : ℚ))),
      jsRound (requestedHeightPx s * ((availableWidth : ℚ) /
        (((s.quantity : ℤ) * requestedWidthPx s + ((s.quantity : ℤ) - 1) * spacingPxOf sp : ℤ) : ℚ)))⟩ := by
  unfold prePlanWith
  rw [if_pos h3, if_neg hfit]

theorem prePlanWith_mid {s : PhotoSettings} {sp : ℚ} (h4 : ¬ s.quantity ≤ 3) (h8 : s.quantity ≤ 8) :
    prePlanWith s sp = ⟨s.quantity, 1,
      jsRound (requestedWidthPx s * ((availableWidth : ℚ) /
        (((s.quantity : ℤ) * requestedWidthPx s + ((s.quantity : ℤ) - 1) * spacingPxOf sp : ℤ) : ℚ))),
      jsRound (requestedHeightPx s * ((availableWidth : ℚ) /
        (((s.quantity : ℤ) * requestedWidthPx s + ((s.quantity : ℤ) - 1) * spacingPxOf sp : ℤ) : ℚ)))⟩ := by
  unfold prePlanWith
  rw [if_neg h4, if_pos h8]

theorem prePlanWith_big {s : PhotoSettings} {sp : ℚ} (h8 : ¬ s.quantity ≤ 8) :
    prePlanWith s sp = ⟨min (jsFloor (((availableWidth + spacingPxOf sp : ℤ) : ℚ) /
        ((requestedWidthPx s + spacingPxOf sp : ℤ) : ℚ))) (s.quantity : ℤ),
      jsCeil ((s.quantity : ℚ) / ((min (jsFloor (((availableWidth + spacingPxOf sp : ℤ) : ℚ) /
        ((requestedWidthPx s + spacingPxOf sp : ℤ) : ℚ))) (s.quantity : ℤ) : ℤ) : ℚ)),
      requestedWidthPx s, requestedHeightPx s⟩ := by
  have h3 : ¬ s.quantity ≤ 3 := by omega
  unfold prePlanWith
  rw [if_neg h3, if_neg h8]
  rfl

theorem finishPlan_photosPerRow (s : PhotoSettings) (sp : ℚ) (p : PrePlan) :
    (finishPlan s sp p).photosPerRow = p.photosPerRow := rfl

theorem finishPlan_totalRows (s : PhotoSettings) (sp : ℚ) (p : PrePlan) :
    (finishPlan s sp p).totalRows = p.totalRows := rfl

theorem finishPlan_dims_of_one_row (s : PhotoSettings) (sp : ℚ) {p : PrePlan}
    (h1 : p.totalRows = 1) :
    (finishPlan s sp p).photoWidthPx = p.photoWidthPx ∧
    (finishPlan s sp p).photoHeightPx = p.photoHeightPx := by
  simp only [finishPlan]
  rw [if_neg]
  · exact ⟨rfl, rfl⟩
  · rintro ⟨hgt, -⟩
    omega

theorem jsFloor_eq_of {x : ℚ} {n : ℤ} (h1 : (n : ℚ) ≤ x) (h2 : x < (n : ℚ) + 1) :
    jsFloor x = n := by
  unfold jsFloor
  rw [Int.floor_eq_iff]
  exact ⟨h1, h2⟩

theorem jsCeil_eq_of {x : ℚ} {n : ℤ} (h1 : (n : ℚ) - 1 < x) (h2 : x ≤ (n : ℚ)) :
    jsCeil x = n := by
  unfold jsCeil
  rw [Int.ceil_eq_iff]
  exact ⟨h1, h2⟩

/-! ## Concrete inputs used in witnesses and counterexamples -/

/-- Scenario C of the spec: width 25 mm, height 35 mm, quantity 20,
spacing 5 mm (top margin 10 mm, auto layout). -/
def scenC : PhotoSettings := ⟨25, 35, 20, 5, 10, Layout.auto⟩

/-- A narrow tall photo in the 4–8 quantity bucket: width 10 mm,
height 150 mm, quantity 4, spacing 5 mm, top margin 5 mm. -/
def cNT : PhotoSettings := ⟨10, 150, 4, 5, 5, Layout.auto⟩

theorem scenC_valid : ValidSettings scenC := by
  unfold ValidSettings scenC
  norm_num

theorem cNT_valid : ValidSettings cNT := by
  unfold ValidSettings cNT
  norm_num

theorem requestedWidthPx_scenC : requestedWidthPx scenC = 295 := by
  unfold requestedWidthPx
  exact jsRound_mm 25 295 (by norm_num) (by norm_num)

theorem requestedHeightPx_scenC : requestedHeightPx scenC = 413 := by
  unfold requestedHeightPx
  exact jsRound_mm 35 413 (by norm_num) (by norm_num)

theorem spacingPx_of_five : spacingPxOf (jsOr 5 5) = 59 := by
  have h5 : jsOr (5 : ℚ) 5 = 5 := by norm_num [jsOr]
  rw [h5]
  unfold spacingPxOf
  exact jsRound_mm 5 59 (by norm_num) (by norm_num)

/-- **C1**: for valid input with quantity > 8, the plan sets
`photosPerRow = min(floor((availableWidth + spacing) / (photoWidth + spacing)), quantity)`
and `totalRows = ceil(quantity / photosPerRow)`, in pixels after mm→px
conversion. -/
theorem claim_C1_over_eight_grid (s : PhotoSettings) (hv : ValidSettings s)
    (h8 : 8 < s.quantity) :
    (plan s).photosPerRow =
      min (jsFloor (((availableWidth + spacingPxOf (jsOr s.spacing 5) : ℤ) : ℚ) /
        ((requestedWidthPx s + spacingPxOf (jsOr s.spacing 5) : ℤ) : ℚ))) (s.quantity : ℤ) ∧
    (plan s).totalRows = jsCeil ((s.quantity : ℚ) / (((plan s).photosPerRow : ℤ) : ℚ)) := by
  have h8n : ¬ s.quantity ≤ 8 := by omega
  unfold plan planWith
  rw [prePlanWith_big h8n, finishPlan_photosPerRow, finishPlan_totalRows]
  exact ⟨rfl, rfl⟩

/-- Witness for C1 at Scenario C (25×35 mm, quantity 20, spacing 5 mm):
photosPerRow = 6 and totalRows = 4. -/
theorem claim_C1_over_eight_grid_witness :
    ValidSettings scenC ∧ 8 < scenC.quantity ∧
    (plan scenC).photosPerRow = 6 ∧ (plan scenC).totalRows = 4 := by
  have hv := scenC_valid
  have h8 : 8 < scenC.quantity := by norm_num [scenC]
  have h := claim_C1_over_eight_grid scenC hv h8
  have hsp : spacingPxOf (jsOr scenC.spacing 5) = 59 := by
    rw [show scenC.spacing = 5 from rfl]
    exact spacingPx_of_five
  have hppr : (plan scenC).photosPerRow = 6 := by
    rw [h.1, hsp, requestedWidthPx_scenC, availableWidth_eq]
    rw [show jsFloor (((2244 + 59 : ℤ) : ℚ) / ((295 + 59 : ℤ) : ℚ)) = 6 from
      jsFloor_eq_of (by norm_num) (by norm_num)]
    rw [show ((scenC.quantity : ℕ) : ℤ) = 20 from rfl]
    norm_num
  refine ⟨hv, h8, hppr, ?_⟩
  rw [h.2, hppr]
  rw [show ((scenC.quantity : ℕ) : ℚ) = 20 from rfl]
  exact jsCeil_eq_of (by norm_num) (by norm_num)

/-- Scenario B of the spec: width 51 mm, height 51 mm, quantity 4,
spacing 5 mm, top margin 10 mm. -/
def scenB : PhotoSettings := ⟨51, 51, 4, 5, 10, Layout.auto⟩

theorem scenB_valid : ValidSettings scenB := by
  unfold ValidSettings scenB
  norm_num

theorem requestedWidthPx_scenB : requestedWidthPx scenB = 602 := by
  unfold requestedWidthPx
  exact jsRound_mm 51 602 (by norm_num) (by norm_num)

theorem requestedHeightPx_scenB : requestedHeightPx scenB = 602 := by
  unfold requestedHeightPx
  exact jsRound_mm 51 602 (by norm_num) (by norm_num)

/-- **C2**: for valid input with 4 ≤ quantity ≤ 8, the plan forces a single
row of `quantity` photos and always rescales both dimensions by
`availableWidth / (quantity*photoWidth + (quantity-1)*spacing)`, even when
the row already fits. -/
theorem claim_C2_mid_bucket_always_scales (s : PhotoSettings) (hv : ValidSettings s)
    (h4 : 4 ≤ s.quantity) (h8 : s.quantity ≤ 8) :
    (plan s).photosPerRow = s.quantity ∧
    (plan s).totalRows = 1 ∧
    (plan s).photoWidthPx = jsRound (requestedWidthPx s * ((availableWidth : ℚ) /
      (((s.quantity : ℤ) * requestedWidthPx s +
        ((s.quantity : ℤ) - 1) * spacingPxOf (jsOr s.spacing 5) : ℤ) : ℚ))) ∧
    (plan s).photoHeightPx = jsRound (requestedHeightPx s * ((availableWidth : ℚ) /
      (((s.quantity : ℤ) * requestedWidthPx s +
        ((s.quantity : ℤ) - 1) * spacingPxOf (jsOr s.spacing 5) : ℤ) : ℚ))) := by
  have h3 : ¬ s.quantity ≤ 3 := by omega
  unfold plan planWith
  rw [prePlanWith_mid h3 h8]
  have hd := finishPlan_dims_of_one_row s (jsOr s.spacing 5)
    (p := ⟨s.quantity, 1,
      jsRound (requestedWidthPx s * ((availableWidth : ℚ) /
        (((s.quantity : ℤ) * requestedWidthPx s +
          ((s.quantity : ℤ) - 1) * spacingPxOf (jsOr s.spacing 5) : ℤ) : ℚ))),
      jsRound (requestedHeightPx s * ((availableWidth : ℚ) /
        (((s.quantity : ℤ) * requestedWidthPx s +
          ((s.quantity : ℤ) - 1) * spacingPxOf (jsOr s.spacing 5) : ℤ) : ℚ)))⟩) rfl
  exact ⟨rfl, rfl, hd.1, hd.2⟩

/-- Witness for C2 at Scenario B (51×51 mm, quantity 4): a single row of 4,
scaled — here down — to span the available width (523 px each way). -/
theorem claim_C2_mid_bucket_always_scales_witness :
    ValidSettings scenB ∧ 4 ≤ scenB.quantity ∧ scenB.quantity ≤ 8 ∧
    (plan scenB).photosPerRow = 4 ∧ (plan scenB).totalRows = 1 ∧
    (plan scenB).photoWidthPx = 523 ∧ (plan scenB).photoHeightPx = 523 := by
  have hv := scenB_valid
  have h := claim_C2_mid_bucket_always_scales scenB hv (by norm_num [scenB]) (by norm_num [scenB])
  have hsp : spacingPxOf (jsOr scenB.spacing 5) = 59 := by
    rw [show scenB.spacing = 5 from rfl]
    exact spacingPx_of_five
  obtain ⟨h1, h2, h3, h4⟩ := h
  rw [hsp, requestedWidthPx_scenB, availableWidth_eq,
    show ((scenB.quantity : ℕ) : ℤ) = 4 from rfl] at h3
  rw [hsp, requestedWidthPx_scenB, requestedHeightPx_scenB, availableWidth_eq,
    show ((scenB.quantity : ℕ) : ℤ) = 4 from rfl] at h4
  refine ⟨hv, by norm_num [scenB], by norm_num [scenB], h1, h2, ?_, ?_⟩
  · rw [h3]
    rw [show ((4 * 602 + (4 - 1) * 59 : ℤ) : ℚ) = 2585 by norm_num]
    exact jsRound_eq_of (by push_cast; norm_num) (by push_cast; norm_num)
  · rw [h4]
    rw [show ((4 * 602 + (4 - 1) * 59 : ℤ) : ℚ) = 2585 by norm_num]
    exact jsRound_eq_of (by push_cast; norm_num) (by push_cast; norm_num)

/-- A fitting small-quantity input: width 35 mm, height 45 mm, quantity 2,
spacing 5 mm, top margin 10 mm. -/
def cFit2 : PhotoSettings := ⟨35, 45, 2, 5, 10, Layout.auto⟩

theorem cFit2_valid : ValidSettings cFit2 := by
  unfold ValidSettings cFit2
  norm_num

theorem requestedWidthPx_cFit2 : requestedWidthPx cFit2 = 413 := by
  unfold requestedWidthPx
  exact jsRound_mm 35 413 (by norm_num) (by norm_num)

theorem requestedHeightPx_cFit2 : requestedHeightPx cFit2 = 531 := by
  unfold requestedHeightPx
  exact jsRound_mm 45 531 (by norm_num) (by norm_num)

/-- **C3**: for valid input with quantity ≤ 3 whose single row fits the
available width in pixels, the plan keeps the requested pixel size
unchanged, with photosPerRow = quantity and totalRows = 1. -/
theorem claim_C3_small_bucket_unscaled (s : PhotoSettings) (hv : ValidSettings s)
    (h3 : s.quantity ≤ 3)
    (hfit : (s.quantity : ℤ) * requestedWidthPx s +
      ((s.quantity : ℤ) - 1) * spacingPxOf (jsOr s.spacing 5) ≤ availableWidth) :
    (plan s).photoWidthPx = requestedWidthPx s ∧
    (plan s).photoHeightPx = requestedHeightPx s ∧
    (plan s).photosPerRow = s.quantity ∧
    (plan s).totalRows = 1 := by
  unfold plan planWith
  rw [prePlanWith_le3_fits h3 hfit]
  have hd := finishPlan_dims_of_one_row s (jsOr s.spacing 5)
    (p := ⟨s.quantity, 1, requestedWidthPx s, requestedHeightPx s⟩) rfl
  exact ⟨hd.1, hd.2, rfl, rfl⟩

/-- Witness for C3 at 35×45 mm, quantity 2: the row fits (885 ≤ 2244 px)
and the plan keeps 413×531 px unchanged. -/
theorem claim_C3_small_bucket_unscaled_witness :
    ValidSettings cFit2 ∧ cFit2.quantity ≤ 3 ∧
    (cFit2.quantity : ℤ) * requestedWidthPx cFit2 +
      ((cFit2.quantity : ℤ) - 1) * spacingPxOf (jsOr cFit2.spacing 5) ≤ availableWidth ∧
    (plan cFit2).photoWidthPx = 413 ∧ (plan cFit2).photoHeightPx = 531 ∧
    (plan cFit2).photosPerRow = 2 ∧ (plan cFit2).totalRows = 1 := by
  have hv := cFit2_valid
  have hsp : spacingPxOf (jsOr cFit2.spacing 5) = 59 := by
    rw [show cFit2.spacing = 5 from rfl]
    exact spacingPx_of_five
  have hfit : (cFit2.quantity : ℤ) * requestedWidthPx cFit2 +
      ((cFit2.quantity : ℤ) - 1) * spacingPxOf (jsOr cFit2.spacing 5) ≤ availableWidth := by
    rw [hsp, requestedWidthPx_cFit2, availableWidth_eq,
      show ((cFit2.quantity : ℕ) : ℤ) = 2 from rfl]
    norm_num
  have h := claim_C3_small_bucket_unscaled cFit2 hv (by norm_num [cFit2]) hfit
  exact ⟨hv, by norm_num [cFit2], hfit, by rw [h.1, requestedWidthPx_cFit2],
    by rw [h.2.1, requestedHeightPx_cFit2],
    by rw [h.2.2.1, show ((cFit2.quantity : ℕ) : ℤ) = 2 from rfl], h.2.2.2⟩

theorem finishPlan_dims_of_cond {s : PhotoSettings} {sp : ℚ} {p : PrePlan}
    (h : p.totalRows > 1 ∧
      (totalRequiredWidth p (spacingPxOf sp) > availableWidth ∨
       totalRequiredHeight p (spacingPxOf sp) > availableHeight s)) :
    (finishPlan s sp p).photoWidthPx = jsRound (p.photoWidthPx *
      (min ((availableWidth : ℚ) / ((totalRequiredWidth p (spacingPxOf sp) : ℤ) : ℚ))
           ((availableHeight s : ℚ) / ((totalRequiredHeight p (spacingPxOf sp) : ℤ) : ℚ)) * 0.98)) ∧
    (finishPlan s sp p).photoHeightPx = jsRound (p.photoHeightPx *
      (min ((availableWidth : ℚ) / ((totalRequiredWidth p (spacingPxOf sp) : ℤ) : ℚ))
           ((availableHeight s : ℚ) / ((totalRequiredHeight p (spacingPxOf sp) : ℤ) : ℚ)) * 0.98)) := by
  simp only [finishPlan]
  rw [if_pos h]
  exact ⟨rfl, rfl⟩

theorem finishPlan_dims_of_not_cond {s : PhotoSettings} {sp : ℚ} {p : PrePlan}
    (h : ¬ (p.totalRows > 1 ∧
      (totalRequiredWidth p (spacingPxOf sp) > availableWidth ∨
       totalRequiredHeight p (spacingPxOf sp) > availableHeight s))) :
    (finishPlan s sp p).photoWidthPx = p.photoWidthPx ∧
    (finishPlan s sp p).photoHeightPx = p.photoHeightPx := by
  simp only [finishPlan]
  rw [if_neg h]
  exact ⟨rfl, rfl⟩

/-- **C5**: the post-branch safety scaling multiplies both dimensions by
`min(availableWidth/totalGridWidth, availableHeight/totalGridHeight) * 0.98`
exactly when `totalRows > 1` and the grid overflows the available area;
otherwise — in particular whenever `totalRows = 1` — the dimensions pass
through unchanged. -/
theorem claim_C5_safety_scale_iff (s : PhotoSettings) :
    ((prePlanWith s (jsOr s.spacing 5)).totalRows > 1 ∧
      (totalRequiredWidth (prePlanWith s (jsOr s.spacing 5)) (spacingPxOf (jsOr s.spacing 5)) > availableWidth ∨
       totalRequiredHeight (prePlanWith s (jsOr s.spacing 5)) (spacingPxOf (jsOr s.spacing 5)) > availableHeight s) →
      (plan s).photoWidthPx = jsRound ((prePlanWith s (jsOr s.spacing 5)).photoWidthPx *
        (min ((availableWidth : ℚ) / ((totalRequiredWidth (prePlanWith s (jsOr s.spacing 5)) (spacingPxOf (jsOr s.spacing 5)) : ℤ) : ℚ))
             ((availableHeight s : ℚ) / ((totalRequiredHeight (prePlanWith s (jsOr s.spacing 5)) (spacingPxOf (jsOr s.spacing 5)) : ℤ) : ℚ)) * 0.98)) ∧
      (plan s).photoHeightPx = jsRound ((prePlanWith s (jsOr s.spacing 5)).photoHeightPx *
        (min ((availableWidth : ℚ) / ((totalRequiredWidth (prePlanWith s (jsOr s.spacing 5)) (spacingPxOf (jsOr s.spacing 5)) : ℤ) : ℚ))
             ((availableHeight s : ℚ) / ((totalRequiredHeight (prePlanWith s (jsOr s.spacing 5)) (spacingPxOf (jsOr s.spacing 5)) : ℤ) : ℚ)) * 0.98))) ∧
    (¬ ((prePlanWith s (jsOr s.spacing 5)).totalRows > 1 ∧
      (totalRequiredWidth (prePlanWith s (jsOr s.spacing 5)) (spacingPxOf (jsOr s.spacing 5)) > availableWidth ∨
       totalRequiredHeight (prePlanWith s (jsOr s.spacing 5)) (spacingPxOf (jsOr s.spacing 5)) > availableHeight s)) →
      (plan s).photoWidthPx = (prePlanWith s (jsOr s.spacing 5)).photoWidthPx ∧
      (plan s).photoHeightPx = (prePlanWith s (jsOr s.spacing 5)).photoHeightPx) ∧
    ((prePlanWith s (jsOr s.spacing 5)).totalRows = 1 →
      (plan s).photoWidthPx = (prePlanWith s (jsOr s.spacing 5)).photoWidthPx ∧
      (plan s).photoHeightPx = (prePlanWith s (jsOr s.spacing 5)).photoHeightPx) := by
  refine ⟨fun h => ?_, fun h => ?_, fun h1 => ?_⟩
  · exact finishPlan_dims_of_cond h
  · exact finishPlan_dims_of_not_cond h
  · exact finishPlan_dims_of_one_row s (jsOr s.spacing 5) h1

theorem spacingPx_scenC : spacingPxOf (jsOr scenC.spacing 5) = 59 := by
  rw [show scenC.spacing = 5 from rfl]
  exact spacingPx_of_five

theorem prePlanWith_scenC : prePlanWith scenC (jsOr scenC.spacing 5) = ⟨6, 4, 295, 413⟩ := by
  rw [prePlanWith_big (show ¬ scenC.quantity ≤ 8 by norm_num [scenC])]
  rw [spacingPx_scenC, requestedWidthPx_scenC, requestedHeightPx_scenC, availableWidth_eq]
  rw [show jsFloor (((2244 + 59 : ℤ) : ℚ) / ((295 + 59 : ℤ) : ℚ)) = 6 from
    jsFloor_eq_of (by norm_num) (by norm_num)]
  rw [show ((scenC.quantity : ℕ) : ℤ) = 20 from rfl]
  rw [show min (6 : ℤ) 20 = 6 by norm_num]
  rw [show ((scenC.quantity : ℕ) : ℚ) = 20 from rfl]
  rw [show jsCeil ((20 : ℚ) / ((6 : ℤ) : ℚ)) = 4 from jsCeil_eq_of (by norm_num) (by norm_num)]

theorem availableHeight_scenC : availableHeight scenC = 3272 := by
  unfold availableHeight topMarginPx
  rw [a4HeightPx_eq, bottomMarginPx_eq]
  rw [show jsOr scenC.topMargin 10 = 10 by norm_num [jsOr, scenC]]
  rw [jsRound_mm 10 118 (by norm_num) (by norm_num)]
  norm_num

/-- Witness for C5 at Scenario C: four rows, but the 2065×1829 px grid fits
2244×3272 px, so the safety scaling is skipped and 295×413 px pass through. -/
theorem claim_C5_safety_scale_iff_witness :
    (plan scenC).photoWidthPx = 295 ∧ (plan scenC).photoHeightPx = 413 := by
  have h := (claim_C5_safety_scale_iff scenC).2.1
  rw [prePlanWith_scenC, spacingPx_scenC, availableHeight_scenC] at h
  have hc : ¬ ((PrePlan.mk 6 4 295 413).totalRows > 1 ∧
      (totalRequiredWidth ⟨6, 4, 295, 413⟩ 59 > availableWidth ∨
       totalRequiredHeight ⟨6, 4, 295, 413⟩ 59 > (3272 : ℤ))) := by
    unfold totalRequiredWidth totalRequiredHeight
    rw [availableWidth_eq]
    norm_num
  have h2 := h hc
  exact h2

theorem plan_ppr_rows_of_le_eight {s : PhotoSettings} (h8 : s.quantity ≤ 8) :
    (plan s).photosPerRow = s.quantity ∧ (plan s).totalRows = 1 := by
  unfold plan planWith
  by_cases h3 : s.quantity ≤ 3
  · by_cases hfit : (s.quantity : ℤ) * requestedWidthPx s +
      ((s.quantity : ℤ) - 1) * spacingPxOf (jsOr s.spacing 5) ≤ availableWidth
    · rw [prePlanWith_le3_fits h3 hfit]
      exact ⟨rfl, rfl⟩
    · rw [prePlanWith_le3_nofit h3 hfit]
      exact ⟨rfl, rfl⟩
  · rw [prePlanWith_mid h3 h8]
    exact ⟨rfl, rfl⟩

/-- For quantity > 8, `photosPerRow = min(maxPerRow, quantity)` is at least 1
under the documented input ranges (a 100 mm photo is still narrower than the
2244 px available width). -/
theorem big_branch_ppr_pos {s : PhotoSettings} (hv : ValidSettings s) (h8 : ¬ s.quantity ≤ 8) :
    1 ≤ min (jsFloor (((availableWidth + spacingPxOf (jsOr s.spacing 5) : ℤ) : ℚ) /
      ((requestedWidthPx s + spacingPxOf (jsOr s.spacing 5) : ℤ) : ℚ))) (s.quantity : ℤ) := by
  obtain ⟨hw1, hw2⟩ := requestedWidthPx_bounds hv
  obtain ⟨hs0, hs236⟩ := spacingPx_bounds hv
  rw [le_min_iff]
  constructor
  · have hden : (0 : ℚ) < ((requestedWidthPx s + spacingPxOf (jsOr s.spacing 5) : ℤ) : ℚ) := by
      have h : (0 : ℤ) < requestedWidthPx s + spacingPxOf (jsOr s.spacing 5) := by omega
      exact_mod_cast h
    unfold jsFloor
    apply Int.le_floor.mpr
    rw [Int.cast_one, le_div_iff hden, one_mul]
    have h : requestedWidthPx s + spacingPxOf (jsOr s.spacing 5) ≤
        availableWidth + spacingPxOf (jsOr s.spacing 5) := by
      rw [availableWidth_eq]
      omega
    exact_mod_cast h
  · omega

/-- **C4**: for every valid input the plan satisfies
`photosPerRow * totalRows ≥ quantity` and
`photosPerRow * (totalRows - 1) < quantity`. -/
theorem claim_C4_grid_covers_quantity (s : PhotoSettings) (hv : ValidSettings s) :
    (s.quantity : ℤ) ≤ (plan s).photosPerRow * (plan s).totalRows ∧
    (plan s).photosPerRow * ((plan s).totalRows - 1) < (s.quantity : ℤ) := by
  obtain ⟨hq1, hq20, -⟩ := id hv
  by_cases h8 : s.quantity ≤ 8
  · obtain ⟨hp, hr⟩ := plan_ppr_rows_of_le_eight h8
    rw [hp, hr]
    constructor
    · omega
    · omega
  · have hppr := big_branch_ppr_pos hv h8
    unfold plan planWith
    rw [prePlanWith_big h8, finishPlan_photosPerRow, finishPlan_totalRows]
    set P : ℤ := min (jsFloor (((availableWidth + spacingPxOf (jsOr s.spacing 5) : ℤ) : ℚ) /
      ((requestedWidthPx s + spacingPxOf (jsOr s.spacing 5) : ℤ) : ℚ))) (s.quantity : ℤ) with hP
    have hPq : (0 : ℚ) < (P : ℚ) := by exact_mod_cast hppr
    constructor
    · have hc : ((s.quantity : ℚ)) / (P : ℚ) ≤ (jsCeil ((s.quantity : ℚ) / (P : ℚ)) : ℚ) :=
        Int.le_ceil _
      rw [div_le_iff hPq] at hc
      have : (s.quantity : ℚ) ≤ ((P * jsCeil ((s.quantity : ℚ) / (P : ℚ)) : ℤ) : ℚ) := by
        push_cast
        linarith
      exact_mod_cast this
    · have hc : (jsCeil ((s.quantity : ℚ) / (P : ℚ)) : ℚ) < (s.quantity : ℚ) / (P : ℚ) + 1 :=
        Int.ceil_lt_add_one _
      have hlt : ((jsCeil ((s.quantity : ℚ) / (P : ℚ)) : ℚ) - 1) * (P : ℚ) < (s.quantity : ℚ) := by
        rw [← lt_div_iff hPq]
        linarith
      have : ((P * (jsCeil ((s.quantity : ℚ) / (P : ℚ)) - 1) : ℤ) : ℚ) < (s.quantity : ℚ) := by
        push_cast
        linarith
      exact_mod_cast this

theorem jsRound_scale_le {v : ℤ} {sc : ℚ} (hv : 0 ≤ v) (h0 : 0 ≤ sc) (h1 : sc ≤ 1) :
    jsRound ((v : ℚ) * sc) ≤ v := by
  have hvq : (0 : ℚ) ≤ (v : ℚ) := Int.cast_nonneg.mpr hv
  have hle : (v : ℚ) * sc ≤ (v : ℚ) := by nlinarith
  calc jsRound ((v : ℚ) * sc) ≤ jsRound ((v : ℚ)) := jsRound_mono hle
    _ = v := jsRound_intCast v

theorem prePlan_big_facts {s : PhotoSettings} (hv : ValidSettings s) (h8 : ¬ s.quantity ≤ 8) :
    (prePlanWith s (jsOr s.spacing 5)).photoWidthPx = requestedWidthPx s ∧
    (prePlanWith s (jsOr s.spacing 5)).photoHeightPx = requestedHeightPx s ∧
    1 ≤ (prePlanWith s (jsOr s.spacing 5)).photosPerRow ∧
    (prePlanWith s (jsOr s.spacing 5)).photosPerRow ≤ (s.quantity : ℤ) ∧
    1 ≤ (prePlanWith s (jsOr s.spacing 5)).totalRows ∧
    (prePlanWith s (jsOr s.spacing 5)).totalRows ≤ (s.quantity : ℤ) := by
  have hppr := big_branch_ppr_pos hv h8
  rw [prePlanWith_big h8]
  have hP : (0 : ℚ) < ((min (jsFloor (((availableWidth + spacingPxOf (jsOr s.spacing 5) : ℤ) : ℚ) /
      ((requestedWidthPx s + spacingPxOf (jsOr s.spacing 5) : ℤ) : ℚ))) (s.quantity : ℤ) : ℤ) : ℚ) := by
    exact_mod_cast hppr
  have hq0 : (0 : ℚ) < (s.quantity : ℚ) := by
    obtain ⟨hq1, -⟩ := hv
    exact_mod_cast hq1
  refine ⟨rfl, rfl, hppr, min_le_right _ _, ?_, ?_⟩
  · exact Int.ceil_pos.mpr (div_pos hq0 hP)
  · apply Int.ceil_le.mpr
    push_cast
    exact div_le_self (le_of_lt hq0) (by exact_mod_cast hppr)

theorem requestedWidthPx_cNT : requestedWidthPx cNT = 118 := by
  unfold requestedWidthPx
  exact jsRound_mm 10 118 (by norm_num) (by norm_num)

theorem requestedHeightPx_cNT : requestedHeightPx cNT = 1772 := by
  unfold requestedHeightPx
  exact jsRound_mm 150 1772 (by norm_num) (by norm_num)

theorem spacingPx_cNT : spacingPxOf (jsOr cNT.spacing 5) = 59 := by
  rw [show cNT.spacing = 5 from rfl]
  exact spacingPx_of_five

/-- The concrete plan for the 10×150 mm, quantity 4 input: a single row of
4 photos enlarged from 118×1772 px to 408×6127 px by the always-scale rule. -/
theorem plan_cNT_dims : (plan cNT).photoWidthPx = 408 ∧ (plan cNT).photoHeightPx = 6127 := by
  unfold plan planWith
  rw [prePlanWith_mid (by norm_num [cNT]) (by norm_num [cNT])]
  rw [spacingPx_cNT, requestedWidthPx_cNT, requestedHeightPx_cNT, availableWidth_eq,
    show ((cNT.quantity : ℕ) : ℤ) = 4 from rfl]
  rw [show ((4 * 118 + (4 - 1) * 59 : ℤ) : ℚ) = 649 by norm_num]
  rw [show jsRound (((118 : ℤ) : ℚ) * ((2244 : ℤ) / (649 : ℚ))) = 408 from
    jsRound_eq_of (by push_cast; norm_num) (by push_cast; norm_num)]
  rw [show jsRound (((1772 : ℤ) : ℚ) * ((2244 : ℤ) / (649 : ℚ))) = 6127 from
    jsRound_eq_of (by push_cast; norm_num) (by push_cast; norm_num)]
  exact finishPlan_dims_of_one_row cNT (jsOr cNT.spacing 5) rfl

/-- **C7 counterexample**: for the valid input 10×150 mm with quantity 4,
the 4–8 bucket scale factor enlarges the photo: the final width is 408 px
although only 118 px were requested. -/
theorem claim_C7_counterexample_enlarges :
    ValidSettings cNT ∧ requestedWidthPx cNT = 118 ∧ requestedHeightPx cNT = 1772 ∧
    (plan cNT).photoWidthPx = 408 ∧ (plan cNT).photoHeightPx = 6127 ∧
    requestedWidthPx cNT < (plan cNT).photoWidthPx ∧
    requestedHeightPx cNT < (plan cNT).photoHeightPx := by
  obtain ⟨hw, hh⟩ := plan_cNT_dims
  refine ⟨cNT_valid, requestedWidthPx_cNT, requestedHeightPx_cNT, hw, hh, ?_, ?_⟩
  · rw [hw, requestedWidthPx_cNT]
    norm_num
  · rw [hh, requestedHeightPx_cNT]
    norm_num

/-- **C7 amended**: outside the 4–8 quantity bucket (quantity ≤ 3 or > 8),
scaling only ever shrinks: the final pixel dimensions never exceed the
requested ones. (Inside the 4–8 bucket the always-scale rule can enlarge,
see the counterexample.) -/
theorem claim_C7_amended_shrink_only (s : PhotoSettings) (hv : ValidSettings s)
    (h : s.quantity ≤ 3 ∨ 8 < s.quantity) :
    (plan s).photoWidthPx ≤ requestedWidthPx s ∧
    (plan s).photoHeightPx ≤ requestedHeightPx s := by
  obtain ⟨hw1, hw2⟩ := requestedWidthPx_bounds hv
  obtain ⟨hh1, hh2⟩ := requestedHeightPx_bounds hv
  obtain ⟨hs0, hs236⟩ := spacingPx_bounds hv
  rcases h with h3 | h8
  · by_cases hfit : (s.quantity : ℤ) * requestedWidthPx s +
      ((s.quantity : ℤ) - 1) * spacingPxOf (jsOr s.spacing 5) ≤ availableWidth
    · unfold plan planWith
      rw [prePlanWith_le3_fits h3 hfit]
      obtain ⟨e1, e2⟩ := finishPlan_dims_of_one_row s (jsOr s.spacing 5)
        (p := ⟨s.quantity, 1, requestedWidthPx s, requestedHeightPx s⟩) rfl
      rw [e1, e2]
      exact ⟨le_refl _, le_refl _⟩
    · unfold plan planWith
      rw [prePlanWith_le3_nofit h3 hfit]
      set srw : ℤ := (s.quantity : ℤ) * requestedWidthPx s +
        ((s.quantity : ℤ) - 1) * spacingPxOf (jsOr s.spacing 5) with hsrw
      push_neg at hfit
      have hsrw0 : (0 : ℚ) < (srw : ℚ) := by
        have : (0 : ℤ) < srw := by
          rw [availableWidth_eq] at hfit
          omega
        exact_mod_cast this
      have hsc0 : (0 : ℚ) ≤ (availableWidth : ℚ) / (srw : ℚ) := by
        apply div_nonneg _ (le_of_lt hsrw0)
        rw [availableWidth_eq]
        norm_num
      have hsc1 : (availableWidth : ℚ) / (srw : ℚ) ≤ 1 := by
        rw [div_le_one hsrw0]
        exact_mod_cast le_of_lt hfit
      obtain ⟨e1, e2⟩ := finishPlan_dims_of_one_row s (jsOr s.spacing 5)
        (p := ⟨s.quantity, 1, jsRound (requestedWidthPx s * ((availableWidth : ℚ) / (srw : ℚ))),
          jsRound (requestedHeightPx s * ((availableWidth : ℚ) / (srw : ℚ)))⟩) rfl
      rw [e1, e2]
      exact ⟨jsRound_scale_le (by omega) hsc0 hsc1, jsRound_scale_le (by omega) hsc0 hsc1⟩
  · have h8n : ¬ s.quantity ≤ 8 := by omega
    obtain ⟨ew, eh, hp1, hpq, hr1, hrq⟩ := prePlan_big_facts hv h8n
    obtain ⟨hah1, hah2⟩ := availableHeight_bounds hv
    set p := prePlanWith s (jsOr s.spacing 5) with hp
    set spx := spacingPxOf (jsOr s.spacing 5) with hspx
    have hplan : plan s = finishPlan s (jsOr s.spacing 5) p := rfl
    by_cases hc : p.totalRows > 1 ∧
      (totalRequiredWidth p spx > availableWidth ∨ totalRequiredHeight p spx > availableHeight s)
    · have htrw0 : (0 : ℤ) < totalRequiredWidth p spx := by
        unfold totalRequiredWidth
        rw [ew]
        nlinarith
      have htrh0 : (0 : ℤ) < totalRequiredHeight p spx := by
        unfold totalRequiredHeight
        rw [eh]
        nlinarith
      have htrwq : (0 : ℚ) < ((totalRequiredWidth p spx : ℤ) : ℚ) := by exact_mod_cast htrw0
      have htrhq : (0 : ℚ) < ((totalRequiredHeight p spx : ℤ) : ℚ) := by exact_mod_cast htrh0
      have hmin0 : 0 ≤ min ((availableWidth : ℚ) / ((totalRequiredWidth p spx : ℤ) : ℚ))
          ((availableHeight s : ℚ) / ((totalRequiredHeight p spx : ℤ) : ℚ)) := by
        apply le_min
        · apply div_nonneg _ (le_of_lt htrwq)
          rw [availableWidth_eq]
          norm_num
        · apply div_nonneg _ (le_of_lt htrhq)
          have : (0 : ℤ) ≤ availableHeight s := by omega
          exact_mod_cast this
      have hmin1 : min ((availableWidth : ℚ) / ((totalRequiredWidth p spx : ℤ) : ℚ))
          ((availableHeight s : ℚ) / ((totalRequiredHeight p spx : ℤ) : ℚ)) ≤ 1 := by
        rcases hc.2 with hov | hov
        · apply le_trans (min_le_left _ _)
          rw [div_le_one htrwq]
          exact_mod_cast le_of_lt hov
        · apply le_trans (min_le_right _ _)
          rw [div_le_one htrhq]
          exact_mod_cast le_of_lt hov
      obtain ⟨e1, e2⟩ := @finishPlan_dims_of_cond s (jsOr s.spacing 5) p hc
      rw [hplan, e1, e2, ew, eh]
      constructor
      · apply jsRound_scale_le (by omega) (by nlinarith) (by nlinarith)
      · apply jsRound_scale_le (by omega) (by nlinarith) (by nlinarith)
    · obtain ⟨e1, e2⟩ := @finishPlan_dims_of_not_cond s (jsOr s.spacing 5) p hc
      rw [hplan, e1, e2, ew, eh]
      exact ⟨le_refl _, le_refl _⟩

theorem finishPlan_util (s : PhotoSettings) (sp : ℚ) (p : PrePlan) :
    (finishPlan s sp p).pageUtilization =
    ((s.quantity * (finishPlan s sp p).photoWidthPx * (finishPlan s sp p).photoHeightPx : ℤ) : ℚ) /
    ((availableWidth * availableHeight s : ℤ) : ℚ) := rfl

theorem half_le_mul_div {v a t : ℚ} (ht : 0 < t) (h : t ≤ 2 * (v * a)) :
    1/2 ≤ v * (a / t) := by
  rw [← mul_div_assoc, le_div_iff₀ ht]
  linarith

theorem half_le_mul_scaled_div {v a t : ℚ} (ht : 0 < t) (h : t ≤ (98/50) * (v * a)) :
    1/2 ≤ v * (a / t * (98/100)) := by
  rw [show v * (a / t * (98/100)) = (98/100 * (v * a)) / t by ring]
  rw [le_div_iff₀ ht]
  linarith

/-- Under the documented valid ranges the plan never rounds a photo
dimension down to zero: both final pixel dimensions are at least 1. -/
theorem plan_dims_pos (s : PhotoSettings) (hv : ValidSettings s) :
    1 ≤ (plan s).photoWidthPx ∧ 1 ≤ (plan s).photoHeightPx := by
  obtain ⟨hq1, hq20, -⟩ := id hv
  obtain ⟨hw1, hw2⟩ := requestedWidthPx_bounds hv
  obtain ⟨hh1, hh2⟩ := requestedHeightPx_bounds hv
  obtain ⟨hs0, hs236⟩ := spacingPx_bounds hv
  obtain ⟨hah1, hah2⟩ := availableHeight_bounds hv
  have hw1q : (118 : ℚ) ≤ (requestedWidthPx s : ℚ) := by exact_mod_cast hw1
  have hw2q : (requestedWidthPx s : ℚ) ≤ 1181 := by exact_mod_cast hw2
  have hh1q : (118 : ℚ) ≤ (requestedHeightPx s : ℚ) := by exact_mod_cast hh1
  have hh2q : (requestedHeightPx s : ℚ) ≤ 1772 := by exact_mod_cast hh2
  have hs0q : (0 : ℚ) ≤ (spacingPxOf (jsOr s.spacing 5) : ℚ) := by exact_mod_cast hs0
  have hs236q : (spacingPxOf (jsOr s.spacing 5) : ℚ) ≤ 236 := by exact_mod_cast hs236
  by_cases h3 : s.quantity ≤ 3
  · by_cases hfit : (s.quantity : ℤ) * requestedWidthPx s +
      ((s.quantity : ℤ) - 1) * spacingPxOf (jsOr s.spacing 5) ≤ availableWidth
    · unfold plan planWith
      rw [prePlanWith_le3_fits h3 hfit]
      obtain ⟨e1, e2⟩ := finishPlan_dims_of_one_row s (jsOr s.spacing 5)
        (p := ⟨s.quantity, 1, requestedWidthPx s, requestedHeightPx s⟩) rfl
      rw [e1, e2]
      constructor
      · show (1 : ℤ) ≤ requestedWidthPx s
        omega
      · show (1 : ℤ) ≤ requestedHeightPx s
        omega
    · unfold plan planWith
      rw [prePlanWith_le3_nofit h3 hfit]
      set srw : ℤ := (s.quantity : ℤ) * requestedWidthPx s +
        ((s.quantity : ℤ) - 1) * spacingPxOf (jsOr s.spacing 5) with hsrwdef
      obtain ⟨e1, e2⟩ := finishPlan_dims_of_one_row s (jsOr s.spacing 5)
        (p := ⟨s.quantity, 1, jsRound (requestedWidthPx s * ((availableWidth : ℚ) / (srw : ℚ))),
          jsRound (requestedHeightPx s * ((availableWidth : ℚ) / (srw : ℚ)))⟩) rfl
      rw [e1, e2]
      have hsrwub : srw ≤ 3 * requestedWidthPx s + 2 * spacingPxOf (jsOr s.spacing 5) := by
        rw [hsrwdef]
        have hq3 : (s.quantity : ℤ) ≤ 3 := by exact_mod_cast h3
        have hq1i : (1 : ℤ) ≤ (s.quantity : ℤ) := by exact_mod_cast hq1
        nlinarith
      have hsrw0 : (0 : ℤ) < srw := by
        rw [hsrwdef]
        have hq1i : (1 : ℤ) ≤ (s.quantity : ℤ) := by exact_mod_cast hq1
        nlinarith
      have hsrw0q : (0 : ℚ) < (srw : ℚ) := by exact_mod_cast hsrw0
      have hsrwubq : (srw : ℚ) ≤ 3 * (requestedWidthPx s : ℚ) +
          2 * (spacingPxOf (jsOr s.spacing 5) : ℚ) := by exact_mod_cast hsrwub
      rw [availableWidth_eq]
      constructor
      · apply one_le_jsRound
        apply half_le_mul_div hsrw0q
        push_cast
        linarith
      · apply one_le_jsRound
        apply half_le_mul_div hsrw0q
        push_cast
        nlinarith
  · by_cases h8 : s.quantity ≤ 8
    · unfold plan planWith
      rw [prePlanWith_mid h3 h8]
      set srw : ℤ := (s.quantity : ℤ) * requestedWidthPx s +
        ((s.quantity : ℤ) - 1) * spacingPxOf (jsOr s.spacing 5) with hsrwdef
      obtain ⟨e1, e2⟩ := finishPlan_dims_of_one_row s (jsOr s.spacing 5)
        (p := ⟨s.quantity, 1, jsRound (requestedWidthPx s * ((availableWidth : ℚ) / (srw : ℚ))),
          jsRound (requestedHeightPx s * ((availableWidth : ℚ) / (srw : ℚ)))⟩) rfl
      rw [e1, e2]
      have hsrwub : srw ≤ 8 * requestedWidthPx s + 7 * spacingPxOf (jsOr s.spacing 5) := by
        rw [hsrwdef]
        have hq8 : (s.quantity : ℤ) ≤ 8 := by exact_mod_cast h8
        have hq1i : (1 : ℤ) ≤ (s.quantity : ℤ) := by exact_mod_cast hq1
        nlinarith
      have hsrw0 : (0 : ℤ) < srw := by
        rw [hsrwdef]
        have hq1i : (1 : ℤ) ≤ (s.quantity : ℤ) := by exact_mod_cast hq1
        nlinarith
      have hsrw0q : (0 : ℚ) < (srw : ℚ) := by exact_mod_cast hsrw0
      have hsrwubq : (srw : ℚ) ≤ 8 * (requestedWidthPx s : ℚ) +
          7 * (spacingPxOf (jsOr s.spacing 5) : ℚ) := by exact_mod_cast hsrwub
      rw [availableWidth_eq]
      constructor
      · apply one_le_jsRound
        apply half_le_mul_div hsrw0q
        push_cast
        linarith
      · apply one_le_jsRound
        apply half_le_mul_div hsrw0q
        push_cast
        nlinarith
    · obtain ⟨ew, eh, hp1, hpq, hr1, hrq⟩ := prePlan_big_facts hv h8
      set p := prePlanWith s (jsOr s.spacing 5) with hpdef
      set spx := spacingPxOf (jsOr s.spacing 5) with hspxdef
      have hplan : plan s = finishPlan s (jsOr s.spacing 5) p := rfl
      have hq20i : (s.quantity : ℤ) ≤ 20 := by exact_mod_cast hq20
      have hP20 : p.photosPerRow ≤ 20 := le_trans hpq hq20i
      have hR20 : p.totalRows ≤ 20 := le_trans hrq hq20i
      have hPw : requestedWidthPx s ≤ p.photosPerRow * requestedWidthPx s := by
        have h := mul_le_mul_of_nonneg_right hp1 (show (0 : ℤ) ≤ requestedWidthPx s by omega)
        rwa [one_mul] at h
      have hRh : requestedHeightPx s ≤ p.totalRows * requestedHeightPx s := by
        have h := mul_le_mul_of_nonneg_right hr1 (show (0 : ℤ) ≤ requestedHeightPx s by omega)
        rwa [one_mul] at h
      have hPs : 0 ≤ (p.photosPerRow - 1) * spx := mul_nonneg (by omega) hs0
      have hRs : 0 ≤ (p.totalRows - 1) * spx := mul_nonneg (by omega) hs0
      have htrwub : totalRequiredWidth p spx ≤ 20 * requestedWidthPx s + 19 * spx := by
        unfold totalRequiredWidth
        rw [ew]
        have h1 : p.photosPerRow * requestedWidthPx s ≤ 20 * requestedWidthPx s :=
          mul_le_mul_of_nonneg_right hP20 (by omega)
        have h2 : (p.photosPerRow - 1) * spx ≤ 19 * spx :=
          mul_le_mul_of_nonneg_right (by omega) hs0
        linarith
      have htrhub : totalRequiredHeight p spx ≤ 20 * requestedHeightPx s + 19 * spx := by
        unfold totalRequiredHeight
        rw [eh]
        have h1 : p.totalRows * requestedHeightPx s ≤ 20 * requestedHeightPx s :=
          mul_le_mul_of_nonneg_right hR20 (by omega)
        have h2 : (p.totalRows - 1) * spx ≤ 19 * spx :=
          mul_le_mul_of_nonneg_right (by omega) hs0
        linarith
      have htrw0 : (0 : ℤ) < totalRequiredWidth p spx := by
        unfold totalRequiredWidth
        rw [ew]
        linarith
      have htrh0 : (0 : ℤ) < totalRequiredHeight p spx := by
        unfold totalRequiredHeight
        rw [eh]
        linarith
      by_cases hc : p.totalRows > 1 ∧
        (totalRequiredWidth p spx > availableWidth ∨ totalRequiredHeight p spx > availableHeight s)
      · obtain ⟨e1, e2⟩ := @finishPlan_dims_of_cond s (jsOr s.spacing 5) p hc
        have hawq : ((availableWidth : ℤ) : ℚ) = 2244 := by
          rw [availableWidth_eq]
          norm_num
        rw [hplan, e1, e2, ew, eh, ← hspxdef, hawq]
        have htrw0q : (0 : ℚ) < ((totalRequiredWidth p spx : ℤ) : ℚ) := by exact_mod_cast htrw0
        have htrh0q : (0 : ℚ) < ((totalRequiredHeight p spx : ℤ) : ℚ) := by exact_mod_cast htrh0
        have htrwubq : ((totalRequiredWidth p spx : ℤ) : ℚ) ≤
            20 * (requestedWidthPx s : ℚ) + 19 * (spx : ℚ) := by exact_mod_cast htrwub
        have htrhubq : ((totalRequiredHeight p spx : ℤ) : ℚ) ≤
            20 * (requestedHeightPx s : ℚ) + 19 * (spx : ℚ) := by exact_mod_cast htrhub
        have hah1q : (2799 : ℚ) ≤ ((availableHeight s : ℤ) : ℚ) := by exact_mod_cast hah1
        have hspq : (spx : ℚ) ≤ 236 := hs236q
        have hsp0q : (0 : ℚ) ≤ (spx : ℚ) := hs0q
        rcases min_cases ((2244 : ℚ) / ((totalRequiredWidth p spx : ℤ) : ℚ))
            (((availableHeight s : ℤ) : ℚ) / ((totalRequiredHeight p spx : ℤ) : ℚ)) with
          ⟨hmin, -⟩ | ⟨hmin, -⟩
        · rw [hmin]
          constructor
          · apply one_le_jsRound
            rw [show (0.98 : ℚ) = 98/100 by norm_num]
            apply half_le_mul_scaled_div htrw0q
            linarith
          · apply one_le_jsRound
            rw [show (0.98 : ℚ) = 98/100 by norm_num]
            apply half_le_mul_scaled_div htrw0q
            have hub : ((totalRequiredWidth p spx : ℤ) : ℚ) ≤ 28104 := by linarith
            linarith
        · rw [hmin]
          constructor
          · apply one_le_jsRound
            rw [show (0.98 : ℚ) = 98/100 by norm_num]
            apply half_le_mul_scaled_div htrh0q
            have hub : ((totalRequiredHeight p spx : ℤ) : ℚ) ≤ 39924 := by linarith
            have hprod : (118 : ℚ) * 2799 ≤
                (requestedWidthPx s : ℚ) * ((availableHeight s : ℤ) : ℚ) :=
              mul_le_mul hw1q hah1q (by norm_num) (le_trans (by norm_num) hw1q)
            linarith
          · apply one_le_jsRound
            rw [show (0.98 : ℚ) = 98/100 by norm_num]
            apply half_le_mul_scaled_div htrh0q
            have hub : ((totalRequiredHeight p spx : ℤ) : ℚ) ≤ 39924 := by linarith
            have hprod : (118 : ℚ) * 2799 ≤
                (requestedHeightPx s : ℚ) * ((availableHeight s : ℤ) : ℚ) :=
              mul_le_mul hh1q hah1q (by norm_num) (le_trans (by norm_num) hh1q)
            linarith
      · obtain ⟨e1, e2⟩ := @finishPlan_dims_of_not_cond s (jsOr s.spacing 5) p hc
        rw [hplan, e1, e2, ew, eh]
        omega

/-- Witness for C4 at Scenario C: 20 photos in a 6×4 grid. -/
theorem claim_C4_grid_covers_quantity_witness :
    (scenC.quantity : ℤ) ≤ (plan scenC).photosPerRow * (plan scenC).totalRows ∧
    (plan scenC).photosPerRow * ((plan scenC).totalRows - 1) < (scenC.quantity : ℤ) :=
  claim_C4_grid_covers_quantity scenC scenC_valid

/-- Witness for the amended C7 at Scenario C (quantity 20 > 8): final
dimensions do not exceed the requested 295×413 px. -/
theorem claim_C7_amended_shrink_only_witness :
    (plan scenC).photoWidthPx ≤ requestedWidthPx scenC ∧
    (plan scenC).photoHeightPx ≤ requestedHeightPx scenC :=
  claim_C7_amended_shrink_only scenC scenC_valid (Or.inr (by norm_num [scenC]))

theorem availableHeight_cNT : availableHeight cNT = 3331 := by
  unfold availableHeight topMarginPx
  rw [a4HeightPx_eq, bottomMarginPx_eq]
  rw [show jsOr cNT.topMargin 10 = 5 by norm_num [jsOr, cNT]]
  rw [jsRound_mm 5 59 (by norm_num) (by norm_num)]
  norm_num

theorem plan_cNT_util : (plan cNT).pageUtilization =
    (((cNT.quantity : ℤ) * 408 * 6127 : ℤ) : ℚ) / ((2244 * 3331 : ℤ) : ℚ) := by
  have h : (plan cNT).pageUtilization =
      (((cNT.quantity : ℤ) * (plan cNT).photoWidthPx * (plan cNT).photoHeightPx : ℤ) : ℚ) /
      ((availableWidth * availableHeight cNT : ℤ) : ℚ) :=
    finishPlan_util cNT (jsOr cNT.spacing 5) (prePlanWith cNT (jsOr cNT.spacing 5))
  rw [h, plan_cNT_dims.1, plan_cNT_dims.2, availableWidth_eq, availableHeight_cNT]

/-- **C6 counterexample**: for the valid input 10×150 mm, quantity 4,
spacing 5 mm, top margin 5 mm, the page utilization is 9999264/7474764 ≈ 1.34,
well above 1 + 10⁻⁶ — the 4–8 bucket scale factor ignores the page height. -/
theorem claim_C6_counterexample_util_above_one :
    ValidSettings cNT ∧ 4 ≤ cNT.quantity ∧ cNT.quantity ≤ 8 ∧
    1 + 1/1000000 < (plan cNT).pageUtilization := by
  refine ⟨cNT_valid, by norm_num [cNT], by norm_num [cNT], ?_⟩
  rw [plan_cNT_util, show ((cNT.quantity : ℕ) : ℤ) = 4 from rfl]
  push_cast
  norm_num

/-- **C6 amended**: for every valid input the page utilization is strictly
positive (but it can exceed 1 in the 4–8 bucket, see the counterexample). -/
theorem claim_C6_amended_utilization_positive (s : PhotoSettings) (hv : ValidSettings s) :
    0 < (plan s).pageUtilization := by
  have h : (plan s).pageUtilization =
      (((s.quantity : ℤ) * (plan s).photoWidthPx * (plan s).photoHeightPx : ℤ) : ℚ) /
      ((availableWidth * availableHeight s : ℤ) : ℚ) :=
    finishPlan_util s (jsOr s.spacing 5) (prePlanWith s (jsOr s.spacing 5))
  obtain ⟨hw1, hh1⟩ := plan_dims_pos s hv
  obtain ⟨hq1, -⟩ := id hv
  obtain ⟨hah1, -⟩ := availableHeight_bounds hv
  have hq1i : (1 : ℤ) ≤ (s.quantity : ℤ) := by exact_mod_cast hq1
  rw [h]
  apply div_pos
  · have hnum : (0 : ℤ) < (s.quantity : ℤ) * (plan s).photoWidthPx * (plan s).photoHeightPx := by
      have h1 : (0 : ℤ) < (s.quantity : ℤ) * (plan s).photoWidthPx :=
        mul_pos (by omega) (by omega)
      exact mul_pos h1 (by omega)
    exact_mod_cast hnum
  · have hden : (0 : ℤ) < availableWidth * availableHeight s := by
      rw [availableWidth_eq]
      have hah0 : (0 : ℤ) < availableHeight s := by omega
      exact mul_pos (by norm_num) hah0
    exact_mod_cast hden

/-- Witness for the amended C6 at the fitting 35×45 mm, quantity 2 input. -/
theorem claim_C6_amended_utilization_positive_witness :
    0 < (plan cFit2).pageUtilization :=
  claim_C6_amended_utilization_positive cFit2 cFit2_valid

/-! ## Row-major placement order -/

theorem grid_flatMap_eq {α : Type} (f : ℕ → ℕ → α) (rows ppr : ℕ) (hp : 0 < ppr) :
    (List.range rows).flatMap (fun row => (List.range ppr).map (fun col => f row col)) =
    (List.range (rows * ppr)).map (fun k => f (k / ppr) (k % ppr)) := by
  induction rows with
  | zero => simp
  | succ n ih =>
    rw [List.range_succ, List.flatMap_append, ih, Nat.succ_mul, List.range_add,
      List.map_append, List.map_map]
    congr 1
    simp only [List.flatMap_cons, List.flatMap_nil, List.append_nil]
    apply List.map_congr_left
    intro c hc
    rw [List.mem_range] at hc
    simp only [Function.comp_apply]
    have hdiv : (n * ppr + c) / ppr = n := by
      rw [Nat.add_comm, Nat.add_mul_div_right _ _ hp, Nat.div_eq_of_lt hc]
      omega
    have hmod : (n * ppr + c) % ppr = c := by
      rw [Nat.add_comm, Nat.add_mul_mod_self_right, Nat.mod_eq_of_lt hc]
    rw [hdiv, hmod]

theorem grid_take_getElem {α : Type} (f : ℕ → ℕ → α) (rows ppr q k : ℕ) (hp : 0 < ppr)
    (hq : q ≤ rows * ppr) (hk : k < q) :
    (((List.range rows).flatMap
        (fun row => (List.range ppr).map (fun col => f row col))).take q)[k]? =
      some (f (k / ppr) (k % ppr)) := by
  rw [grid_flatMap_eq f rows ppr hp]
  rw [← List.map_take, List.take_range, Nat.min_eq_left hq]
  rw [List.getElem?_map, List.getElem?_range hk]
  rfl

/-! ## C9: positioning as the spec words it -/

/-- `availableWidth = 210 - 2 * sideMargin` of the PDF generator. -/
def pdfAvailableWidth : ℚ := pdfPageWidth - 2 * pdfSideMargin

/-- Modelled from the spec wording of the positioning contract: horizontal
anchor `left` → side margin, `right` → page width − side margin − grid
width, `middle` and `auto` → centered within the available width. -/
def specPdfStartX (s : PhotoSettings) (gw : ℚ) : ℚ :=
  match s.layout with
  | Layout.auto => pdfSideMargin + (pdfAvailableWidth - gw) / 2
  | Layout.anchored _ HorizAnchor.left => pdfSideMargin
  | Layout.anchored _ HorizAnchor.right => pdfPageWidth - pdfSideMargin - gw
  | Layout.anchored _ HorizAnchor.hmiddle => pdfSideMargin + (pdfAvailableWidth - gw) / 2

/-- Modelled from the spec wording of the positioning contract: vertical
anchor `top` → top margin, `down` → page height − bottom margin − grid
height, `middle` and `auto` → centered within the available height below
the top margin. -/
def specPdfStartY (s : PhotoSettings) (gh : ℚ) : ℚ :=
  match s.layout with
  | Layout.auto => pdfTopMargin s + (pdfAvailableHeight s - gh) / 2
  | Layout.anchored VertAnchor.top _ => pdfTopMargin s
  | Layout.anchored VertAnchor.down _ => pdfPageHeight - pdfBottomMargin - gh
  | Layout.anchored VertAnchor.vmiddle _ => pdfTopMargin s + (pdfAvailableHeight s - gh) / 2

/-- The spec wording of the preview horizontal anchor, in pixels. -/
def specPreviewStartX (s : PhotoSettings) (gw : ℤ) : ℚ :=
  match s.layout with
  | Layout.auto => (previewSideMargin : ℚ) + ((previewAvailableWidth - gw : ℤ) : ℚ) / 2
  | Layout.anchored _ HorizAnchor.left => (previewSideMargin : ℚ)
  | Layout.anchored _ HorizAnchor.right => ((previewCanvasWidth - previewSideMargin - gw : ℤ) : ℚ)
  | Layout.anchored _ HorizAnchor.hmiddle =>
      (previewSideMargin : ℚ) + ((previewAvailableWidth - gw : ℤ) : ℚ) / 2

/-- The spec wording of the preview vertical anchor, in pixels. -/
def specPreviewStartY (s : PhotoSettings) (gh : ℤ) : ℚ :=
  match s.layout with
  | Layout.auto => (previewTopMargin s : ℚ) + ((previewAvailableHeight s - gh : ℤ) : ℚ) / 2
  | Layout.anchored VertAnchor.top _ => (previewTopMargin s : ℚ)
  | Layout.anchored VertAnchor.down _ => ((previewCanvasHeight - previewBottomMargin - gh : ℤ) : ℚ)
  | Layout.anchored VertAnchor.vmiddle _ =>
      (previewTopMargin s : ℚ) + ((previewAvailableHeight s - gh : ℤ) : ℚ) / 2

theorem pdfStartX_eq_spec (s : PhotoSettings) (gw : ℚ) :
    pdfStartX s gw = specPdfStartX s gw := by
  unfold pdfStartX specPdfStartX pdfAvailableWidth pdfPageWidth pdfSideMargin
  match s.layout with
  | Layout.auto => ring
  | Layout.anchored _ HorizAnchor.left => ring
  | Layout.anchored _ HorizAnchor.right => ring
  | Layout.anchored _ HorizAnchor.hmiddle => ring

theorem pdfStartY_eq_spec (s : PhotoSettings) (gh : ℚ) :
    pdfStartY s gh = specPdfStartY s gh := by
  unfold pdfStartY specPdfStartY
  match s.layout with
  | Layout.auto => ring
  | Layout.anchored VertAnchor.top _ => ring
  | Layout.anchored VertAnchor.down _ => ring
  | Layout.anchored VertAnchor.vmiddle _ => ring

theorem previewStartX_eq_spec (s : PhotoSettings) (gw : ℤ) :
    previewStartX s gw = specPreviewStartX s gw := by
  unfold previewStartX specPreviewStartX previewAvailableWidth
  match s.layout with
  | Layout.auto => push_cast; ring
  | Layout.anchored _ HorizAnchor.left => ring
  | Layout.anchored _ HorizAnchor.right => ring
  | Layout.anchored _ HorizAnchor.hmiddle => push_cast; ring

theorem previewStartY_eq_spec (s : PhotoSettings) (gh : ℤ) :
    previewStartY s gh = specPreviewStartY s gh := by
  unfold previewStartY specPreviewStartY
  match s.layout with
  | Layout.auto => ring
  | Layout.anchored VertAnchor.top _ => ring
  | Layout.anchored VertAnchor.down _ => ring
  | Layout.anchored VertAnchor.vmiddle _ => ring

/-- **C9**: for every plan shape (photosPerRow ≥ 1 covering the quantity)
and every layout setting, photo `k` (0-indexed, k < quantity) is placed at
`(startX + (k mod photosPerRow)*(photoWidth + spacing),
  startY + (k div photosPerRow)*(photoHeight + spacing))` with the start
point given by the anchor table of the spec, both in the PDF generator
(mm) and in the preview generator (pixels, rounded per coordinate). -/
theorem claim_C9_row_major_positions (s : PhotoSettings) (ppr rows : ℕ) (hp : 0 < ppr)
    (hcover : s.quantity ≤ ppr * rows) (k : ℕ) (hk : k < s.quantity) :
    (pdfPlacements s ppr rows)[k]? = some
      (specPdfStartX s (pdfGridWidth s (jsOr s.spacing 5) ppr) +
         ((k % ppr : ℕ) : ℚ) * (s.width + jsOr s.spacing 5),
       specPdfStartY s (pdfGridHeight s (jsOr s.spacing 5) rows) +
         ((k / ppr : ℕ) : ℚ) * (s.height + jsOr s.spacing 5)) ∧
    (previewPlacements s ppr rows)[k]? = some
      (jsRound (specPreviewStartX s (previewGridWidth s (jsOr s.spacing 5) ppr) +
         ((k % ppr : ℕ) : ℚ) * ((previewPhotoWidth s + previewSpacingPx (jsOr s.spacing 5) : ℤ) : ℚ)),
       jsRound (specPreviewStartY s (previewGridHeight s (jsOr s.spacing 5) rows) +
         ((k / ppr : ℕ) : ℚ) * ((previewPhotoHeight s + previewSpacingPx (jsOr s.spacing 5) : ℤ) : ℚ))) := by
  have hcover2 : s.quantity ≤ rows * ppr := by
    rw [Nat.mul_comm]
    exact hcover
  constructor
  · unfold pdfPlacements pdfPlacementsWith
    rw [grid_take_getElem (pdfPos s (jsOr s.spacing 5) ppr rows) rows ppr s.quantity k hp
      hcover2 hk]
    unfold pdfPos
    rw [pdfStartX_eq_spec, pdfStartY_eq_spec]
  · unfold previewPlacements previewPlacementsWith
    rw [grid_take_getElem (previewPos s (jsOr s.spacing 5) ppr rows) rows ppr s.quantity k hp
      hcover2 hk]
    unfold previewPos
    rw [previewStartX_eq_spec, previewStartY_eq_spec]

theorem PREVIEW_MM_TO_PIXELS_eq : PREVIEW_MM_TO_PIXELS = 750/127 := by
  unfold PREVIEW_MM_TO_PIXELS
  norm_num

theorem jsRound_pmm (c : ℚ) (n : ℤ) (h1 : (n : ℚ) ≤ c * (750/127) + 1/2)
    (h2 : c * (750/127) + 1/2 < (n : ℚ) + 1) : jsRound (c * PREVIEW_MM_TO_PIXELS) = n := by
  rw [PREVIEW_MM_TO_PIXELS_eq]
  exact jsRound_eq_of h1 h2

/-- Witness for C9 at Scenario C with the 6×4 grid, photo k = 7 (row 1,
column 1, auto layout): PDF position (47.5 mm, 111 mm), preview position
(279 px, 655 px). -/
theorem claim_C9_row_major_positions_witness :
    (pdfPlacements scenC 6 4)[7]? = some (95/2, 111) ∧
    (previewPlacements scenC 6 4)[7]? = some (279, 655) := by
  obtain ⟨h1, h2⟩ := claim_C9_row_major_positions scenC 6 4 (by norm_num)
    (by norm_num [scenC]) 7 (by norm_num [scenC])
  have hsp : jsOr scenC.spacing 5 = 5 := by norm_num [jsOr, scenC]
  rw [hsp] at h1 h2
  constructor
  · have hgw : pdfGridWidth scenC 5 6 = 175 := by
      unfold pdfGridWidth
      rw [show scenC.width = (25 : ℚ) from rfl]
      norm_num
    have hgh : pdfGridHeight scenC 5 4 = 155 := by
      unfold pdfGridHeight
      rw [show scenC.height = (35 : ℚ) from rfl]
      norm_num
    have hsx : specPdfStartX scenC 175 = 35/2 := by
      show pdfSideMargin + (pdfAvailableWidth - 175) / 2 = 35/2
      simp only [pdfAvailableWidth, pdfPageWidth, pdfSideMargin]
      norm_num
    have hsy : specPdfStartY scenC 155 = 71 := by
      show pdfTopMargin scenC + (pdfAvailableHeight scenC - 155) / 2 = 71
      simp only [pdfAvailableHeight, pdfTopMargin, pdfPageHeight, pdfBottomMargin]
      rw [show jsOr scenC.topMargin 10 = 10 by norm_num [jsOr, scenC]]
      norm_num
    rw [hgw, hgh, hsx, hsy, show scenC.width = (25 : ℚ) from rfl,
      show scenC.height = (35 : ℚ) from rfl] at h1
    rw [h1]
    simp only [Option.some.injEq, Prod.mk.injEq]
    constructor
    · push_cast
      norm_num
    · push_cast
      norm_num
  · have hpw : previewPhotoWidth scenC = 148 := by
      unfold previewPhotoWidth
      rw [show scenC.width = (25 : ℚ) from rfl]
      exact jsRound_pmm 25 148 (by norm_num) (by norm_num)
    have hph : previewPhotoHeight scenC = 207 := by
      unfold previewPhotoHeight
      rw [show scenC.height = (35 : ℚ) from rfl]
      exact jsRound_pmm 35 207 (by norm_num) (by norm_num)
    have hpsp : previewSpacingPx 5 = 30 := by
      unfold previewSpacingPx
      exact jsRound_pmm 5 30 (by norm_num) (by norm_num)
    have hside : previewSideMargin = 59 := by
      unfold previewSideMargin
      exact jsRound_pmm 10 59 (by norm_num) (by norm_num)
    have hbm : previewBottomMargin = 59 := by
      unfold previewBottomMargin
      exact jsRound_pmm 10 59 (by norm_num) (by norm_num)
    have hcw : previewCanvasWidth = 1240 := by
      unfold previewCanvasWidth
      exact jsRound_pmm 210 1240 (by norm_num) (by norm_num)
    have hch : previewCanvasHeight = 1754 := by
      unfold previewCanvasHeight
      exact jsRound_pmm 297 1754 (by norm_num) (by norm_num)
    have htm : previewTopMargin scenC = 59 := by
      unfold previewTopMargin
      rw [show jsOr scenC.topMargin 10 = 10 by norm_num [jsOr, scenC]]
      exact jsRound_pmm 10 59 (by norm_num) (by norm_num)
    have hgw2 : previewGridWidth scenC 5 6 = 1038 := by
      unfold previewGridWidth
      rw [hpw, hpsp]
      norm_num
    have hgh2 : previewGridHeight scenC 5 4 = 918 := by
      unfold previewGridHeight
      rw [hph, hpsp]
      norm_num
    have hsx2 : specPreviewStartX scenC 1038 = 101 := by
      show (previewSideMargin : ℚ) + ((previewAvailableWidth - 1038 : ℤ) : ℚ) / 2 = 101
      unfold previewAvailableWidth
      rw [hside, hcw]
      push_cast
      norm_num
    have hsy2 : specPreviewStartY scenC 918 = 418 := by
      show (previewTopMargin scenC : ℚ) + ((previewAvailableHeight scenC - 918 : ℤ) : ℚ) / 2 = 418
      unfold previewAvailableHeight
      rw [htm, hch, hbm]
      push_cast
      norm_num
    rw [hgw2, hgh2, hsx2, hsy2, hpw, hph, hpsp] at h2
    rw [h2]
    simp only [Option.some.injEq, Prod.mk.injEq]
    constructor
    · unfold jsRound
      rw [Int.floor_eq_iff]
      push_cast
      norm_num
    · unfold jsRound
      rw [Int.floor_eq_iff]
      push_cast
      norm_num

/-! ## C10: the `spacing || 5` default -/

theorem jsOr_zero (d : ℚ) : jsOr 0 d = d := by
  unfold jsOr
  rw [if_pos rfl]

theorem spacingPxOf_five : spacingPxOf 5 = 59 := by
  unfold spacingPxOf
  exact jsRound_mm 5 59 (by norm_num) (by norm_num)

theorem spacingPxOf_zero : spacingPxOf 0 = 0 := by
  unfold spacingPxOf
  rw [zero_mul]
  exact jsRound_eq_of (by norm_num) (by norm_num)

/-- Spacing 0 on a small fitting input: width 10 mm, height 10 mm,
quantity 2, spacing 0 mm, top margin 10 mm. -/
def cZeroFit : PhotoSettings := ⟨10, 10, 2, 0, 10, Layout.auto⟩

/-- Spacing 0 on Scenario C geometry: width 25 mm, height 35 mm,
quantity 20, spacing 0 mm, top margin 10 mm. -/
def cZeroBig : PhotoSettings := ⟨25, 35, 20, 0, 10, Layout.auto⟩

theorem cZeroFit_valid : ValidSettings cZeroFit := by
  unfold ValidSettings cZeroFit
  norm_num

theorem cZeroBig_valid : ValidSettings cZeroBig := by
  unfold ValidSettings cZeroBig
  norm_num

theorem finishPlan_one_row_eq (s : PhotoSettings) (sp : ℚ) (p : PrePlan)
    (h1 : p.totalRows = 1) :
    finishPlan s sp p = ⟨p.photosPerRow, p.totalRows, p.photoWidthPx, p.photoHeightPx,
      (((s.quantity : ℤ) * p.photoWidthPx * p.photoHeightPx : ℤ) : ℚ) /
      ((availableWidth * availableHeight s : ℤ) : ℚ)⟩ := by
  simp only [finishPlan]
  rw [if_neg]
  · rintro ⟨hgt, -⟩
    omega

theorem requestedWidthPx_cZeroFit : requestedWidthPx cZeroFit = 118 := by
  unfold requestedWidthPx
  exact jsRound_mm 10 118 (by norm_num) (by norm_num)

theorem requestedHeightPx_cZeroFit : requestedHeightPx cZeroFit = 118 := by
  unfold requestedHeightPx
  exact jsRound_mm 10 118 (by norm_num) (by norm_num)

theorem prePlan_cZeroFit_default :
    prePlanWith cZeroFit (jsOr cZeroFit.spacing 5) = ⟨2, 1, 118, 118⟩ := by
  have hsp : spacingPxOf (jsOr cZeroFit.spacing 5) = 59 := by
    rw [show cZeroFit.spacing = 0 from rfl, jsOr_zero]
    exact spacingPxOf_five
  have hfit : (cZeroFit.quantity : ℤ) * requestedWidthPx cZeroFit +
      ((cZeroFit.quantity : ℤ) - 1) * spacingPxOf (jsOr cZeroFit.spacing 5) ≤ availableWidth := by
    rw [hsp, requestedWidthPx_cZeroFit, availableWidth_eq,
      show ((cZeroFit.quantity : ℕ) : ℤ) = 2 from rfl]
    norm_num
  rw [prePlanWith_le3_fits (by norm_num [cZeroFit]) hfit,
    requestedWidthPx_cZeroFit, requestedHeightPx_cZeroFit]
  rfl

theorem prePlan_cZeroFit_raw :
    prePlanWith cZeroFit cZeroFit.spacing = ⟨2, 1, 118, 118⟩ := by
  have hsp : spacingPxOf cZeroFit.spacing = 0 := by
    rw [show cZeroFit.spacing = 0 from rfl]
    exact spacingPxOf_zero
  have hfit : (cZeroFit.quantity : ℤ) * requestedWidthPx cZeroFit +
      ((cZeroFit.quantity : ℤ) - 1) * spacingPxOf cZeroFit.spacing ≤ availableWidth := by
    rw [hsp, requestedWidthPx_cZeroFit, availableWidth_eq,
      show ((cZeroFit.quantity : ℕ) : ℤ) = 2 from rfl]
    norm_num
  rw [prePlanWith_le3_fits (by norm_num [cZeroFit]) hfit,
    requestedWidthPx_cZeroFit, requestedHeightPx_cZeroFit]
  rfl

/-- **C10 counterexample**: with spacing 0 and quantity 2 (10×10 mm), the
plan computed with the 5 mm default coincides with the plan that honors
0 mm spacing — both rows fit, so no field differs. -/
theorem claim_C10_counterexample_plans_coincide :
    ValidSettings cZeroFit ∧ 1 < cZeroFit.quantity ∧ cZeroFit.spacing = 0 ∧
    plan cZeroFit = planRawSpacing cZeroFit := by
  refine ⟨cZeroFit_valid, by norm_num [cZeroFit], rfl, ?_⟩
  unfold plan planRawSpacing planWith
  rw [prePlan_cZeroFit_default, prePlan_cZeroFit_raw]
  rw [finishPlan_one_row_eq _ _ _ rfl, finishPlan_one_row_eq _ _ _ rfl]

theorem requestedWidthPx_cZeroBig : requestedWidthPx cZeroBig = 295 := by
  unfold requestedWidthPx
  exact jsRound_mm 25 295 (by norm_num) (by norm_num)

theorem plan_cZeroBig_default_ppr : (plan cZeroBig).photosPerRow = 6 := by
  unfold plan planWith
  rw [prePlanWith_big (by norm_num [cZeroBig]), finishPlan_photosPerRow]
  rw [show jsOr cZeroBig.spacing 5 = 5 by rw [show cZeroBig.spacing = 0 from rfl, jsOr_zero]]
  rw [spacingPxOf_five, requestedWidthPx_cZeroBig, availableWidth_eq]
  rw [show jsFloor (((2244 + 59 : ℤ) : ℚ) / ((295 + 59 : ℤ) : ℚ)) = 6 from
    jsFloor_eq_of (by norm_num) (by norm_num)]
  rw [show ((cZeroBig.quantity : ℕ) : ℤ) = 20 from rfl]
  norm_num

theorem plan_cZeroBig_raw_ppr : (planRawSpacing cZeroBig).photosPerRow = 7 := by
  unfold planRawSpacing planWith
  rw [prePlanWith_big (by norm_num [cZeroBig]), finishPlan_photosPerRow]
  rw [show cZeroBig.spacing = (0 : ℚ) from rfl, spacingPxOf_zero,
    requestedWidthPx_cZeroBig, availableWidth_eq]
  rw [show jsFloor (((2244 + 0 : ℤ) : ℚ) / ((295 + 0 : ℤ) : ℚ)) = 7 from
    jsFloor_eq_of (by norm_num) (by norm_num)]
  rw [show ((cZeroBig.quantity : ℕ) : ℤ) = 20 from rfl]
  norm_num

/-- **C10**: the expression `settings.spacing || 5` treats a spacing of 0 mm
as absent, so the planner and both renderers behave exactly as if the
spacing were 5 mm; and there is a valid input with quantity > 1
(25×35 mm, quantity 20) on which this changes the plan compared to
honoring the 0 mm spacing (6×4 grid instead of 7×3). -/
theorem claim_C10_zero_spacing_uses_five :
    (∀ s : PhotoSettings, s.spacing = 0 →
      plan s = planWith s 5 ∧
      (∀ ppr rows : ℕ, pdfPlacements s ppr rows = pdfPlacementsWith s 5 ppr rows) ∧
      (∀ ppr rows : ℕ, previewPlacements s ppr rows = previewPlacementsWith s 5 ppr rows)) ∧
    (ValidSettings cZeroBig ∧ 1 < cZeroBig.quantity ∧ cZeroBig.spacing = 0 ∧
      plan cZeroBig ≠ planRawSpacing cZeroBig) := by
  constructor
  · intro s hs0
    have hjs : jsOr s.spacing 5 = 5 := by
      rw [hs0, jsOr_zero]
    refine ⟨?_, fun ppr rows => ?_, fun ppr rows => ?_⟩
    · unfold plan
      rw [hjs]
    · unfold pdfPlacements
      rw [hjs]
    · unfold previewPlacements
      rw [hjs]
  · refine ⟨cZeroBig_valid, by norm_num [cZeroBig], rfl, ?_⟩
    intro heq
    have h := congrArg LayoutPlan.photosPerRow heq
    rw [plan_cZeroBig_default_ppr, plan_cZeroBig_raw_ppr] at h
    exact absurd h (by norm_num)

/-- Witness for C10 at the spacing-0 inputs: the planner result with the
defaulted spacing equals the explicit 5 mm run. -/
theorem claim_C10_zero_spacing_uses_five_witness :
    plan cZeroFit = planWith cZeroFit 5 ∧
    pdfPlacements cZeroFit 2 1 = pdfPlacementsWith cZeroFit 5 2 1 :=
  ⟨(claim_C10_zero_spacing_uses_five.1 cZeroFit rfl).1,
   (claim_C10_zero_spacing_uses_five.1 cZeroFit rfl).2.1 2 1⟩

/-! ## C8: what the layout handler persists -/

theorem plan_cNT_ppr_rows : (plan cNT).photosPerRow = 4 ∧ (plan cNT).totalRows = 1 := by
  obtain ⟨hp, hr⟩ := plan_ppr_rows_of_le_eight (s := cNT) (by norm_num [cNT])
  exact ⟨by rw [hp]; rfl, hr⟩

/-- **C8 counterexample**: for the valid 10×150 mm quantity-4 input, whose
final photo size (408×6127 px) differs from the requested size, neither
final dimension occurs anywhere among the numeric values of the record the
handler passes to `storage.saveLayoutResult` — the persisted plan carries
only photosPerRow, totalRows, pageUtilization, the raw settings and the
border width, so the scaled size cannot be read back from it. -/
theorem claim_C8_counterexample_final_size_not_persisted :
    ValidSettings cNT ∧
    (plan cNT).photoWidthPx = 408 ∧ (plan cNT).photoHeightPx = 6127 ∧
    ¬ (((plan cNT).photoWidthPx : ℚ) ∈ savedNumericValues (savedLayoutRecord cNT 0)) ∧
    ¬ (((plan cNT).photoHeightPx : ℚ) ∈ savedNumericValues (savedLayoutRecord cNT 0)) := by
  obtain ⟨hw, hh⟩ := plan_cNT_dims
  obtain ⟨hp, hr⟩ := plan_cNT_ppr_rows
  refine ⟨cNT_valid, hw, hh, ?_, ?_⟩
  · simp only [savedNumericValues, savedLayoutRecord, hw, hh, hp, hr, plan_cNT_util,
      List.mem_cons, List.not_mem_nil, or_false]
    push_cast
    norm_num [cNT]
  · simp only [savedNumericValues, savedLayoutRecord, hw, hh, hp, hr, plan_cNT_util,
      List.mem_cons, List.not_mem_nil, or_false]
    push_cast
    norm_num [cNT]

/-- **C8 amended**: the value the handler persists carries the settings,
photosPerRow, totalRows, pageUtilization and the border width of the
computed plan — and exactly those numeric values; the final (possibly
scaled) photo pixel dimensions are not among them. -/
theorem claim_C8_amended_record_contents (s : PhotoSettings) (b : ℚ) :
    (savedLayoutRecord s b).settings = s ∧
    (savedLayoutRecord s b).photosPerRow = (plan s).photosPerRow ∧
    (savedLayoutRecord s b).totalRows = (plan s).totalRows ∧
    (savedLayoutRecord s b).pageUtilization = (plan s).pageUtilization ∧
    (savedLayoutRecord s b).borderWidth = b ∧
    savedNumericValues (savedLayoutRecord s b) =
      [((plan s).photosPerRow : ℚ), ((plan s).totalRows : ℚ), (plan s).pageUtilization,
       s.width, s.height, (s.quantity : ℚ), s.spacing, s.topMargin, b] :=
  ⟨rfl, rfl, rfl, rfl, rfl, rfl⟩
